import Mathlib

/-!
Swing-structure detection engine: a shallow embedding.

This file embeds the swing-indicator engine of the repository
(`src/lib/indicators/custom-indicator.ts`) in Lean 4 and proves the spec's
claims about it.  Prices are modelled as rationals (the inputs the engine is
fed are finite decimal numbers), JavaScript `NaN`-valued price results are
modelled as `Option` (`none` = `NaN`), and the optional fields of the
settings object are modelled as `Option` fields (`none` = the field is
absent, so the destructuring default applies).  The `timestamp` field of a
candle is modelled directly as the Unix-seconds integer that the source
computes from the ISO string (`Math.floor(Date.parse(..)/1000)`); none of
the claims constrain the string-to-seconds conversion itself.
-/

namespace SwingIndicator

/-- A candle, as consumed by the engine: `{high, low, close, timestamp}`. -/
structure Candle where
  high : ℚ
  low : ℚ
  close : ℚ
  timestamp : ℤ
  deriving DecidableEq

/-- The `'high' | 'low'` tag of a swing point. -/
inductive SwingType where
  | high
  | low
  deriving DecidableEq

/-- A swing point `{barIndex, price, type, time}`. -/
structure SwingPoint where
  barIndex : ℕ
  price : ℚ
  type : SwingType
  time : ℤ
  deriving DecidableEq

/-- The three-state regime label. -/
inductive RegimeKind where
  | bullTrend
  | bearTrend
  | range
  deriving DecidableEq

/-- A market regime record `{regime, recommendation, color}`. -/
structure MarketRegime where
  regime : RegimeKind
  recommendation : String
  color : String
  deriving DecidableEq

/-- The settings bag `SwingZoneSettings`; every field is optional
(`none` = absent in the JS object, so the in-function default applies). -/
structure SwingZoneSettings where
  showHighs : Option Bool := none
  showLows : Option Bool := none
  sensitivity : Option ℕ := none
  maxSwingPoints : Option ℕ := none
  showRegime : Option Bool := none
  fastMALength : Option ℕ := none
  slowMALength : Option ℕ := none
  regimeConfirmationBars : Option ℕ := none
  enableRays : Option Bool := none
  raySensitivity : Option ℕ := none
  numRaysToShow : Option ℕ := none
  deriving DecidableEq

/-- Result record of `calculateSwingZone`. -/
structure SwingZoneResult where
  swingHighs : List SwingPoint
  swingLows : List SwingPoint
  regime : Option MarketRegime
  deriving DecidableEq

/-- Result record of `calculateSwingRays`. -/
structure SwingRaysResult where
  rayHighs : List SwingPoint
  rayLows : List SwingPoint
  deriving DecidableEq

/-- The function `calculateSMA`: entry `i` is `none` (JS `NaN`) when fewer than `period`
bars end at `i`; otherwise the unweighted mean of
`data.slice(i - period + 1, i + 1)`.  A `period` of `0` falls through the
JS guard `i < period - 1` but then divides the empty sum by zero, which is
`NaN`; hence the `period = 0` disjunct. -/
def calculateSMA (data : List ℚ) (period : ℕ) : List (Option ℚ) :=
  (List.range data.length).map fun i =>
    if i + 1 < period ∨ period = 0 then none
    else some ((((data.drop (i + 1 - period)).take period).sum) / (period : ℚ))

/-- The function `pivotHigh`: `none` (JS `NaN`) at out-of-window indices, otherwise the
center high provided every neighbor within `leftBars` to the left and
`rightBars` to the right is strictly below it (the source returns `NaN` as
soon as some neighbor is `>=` the center). -/
def pivotHigh (highs : List ℚ) (leftBars rightBars index : ℕ) : Option ℚ :=
  if index < leftBars ∨ highs.length ≤ index + rightBars then none
  else
    if ((List.range' (index - leftBars) leftBars).all fun i =>
          decide (highs.getD i 0 < highs.getD index 0)) &&
        ((List.range' (index + 1) rightBars).all fun i =>
          decide (highs.getD i 0 < highs.getD index 0)) then
      some (highs.getD index 0)
    else none

/-- The function `pivotLow`: mirror image of `pivotHigh` (every neighbor strictly above
the center low). -/
def pivotLow (lows : List ℚ) (leftBars rightBars index : ℕ) : Option ℚ :=
  if index < leftBars ∨ lows.length ≤ index + rightBars then none
  else
    if ((List.range' (index - leftBars) leftBars).all fun i =>
          decide (lows.getD index 0 < lows.getD i 0)) &&
        ((List.range' (index + 1) rightBars).all fun i =>
          decide (lows.getD index 0 < lows.getD i 0)) then
      some (lows.getD index 0)
    else none

/-- The JS `>` on possibly-`NaN` numbers: any comparison with `NaN` is false. -/
def numGt : Option ℚ → Option ℚ → Bool
  | some a, some b => decide (b < a)
  | _, _ => false

/-- The JS `<` on possibly-`NaN` numbers: any comparison with `NaN` is false. -/
def numLt (a b : Option ℚ) : Bool :=
  numGt b a

/-- The fixed recommendation string and display color attached to each
regime label. -/
def regimeInfo : RegimeKind → MarketRegime
  | RegimeKind.bullTrend =>
      { regime := RegimeKind.bullTrend
        recommendation := "Trade: Long Break + Retest"
        color := "#00ff00" }
  | RegimeKind.bearTrend =>
      { regime := RegimeKind.bearTrend
        recommendation := "Trade: Short Break + Retest"
        color := "#ff0000" }
  | RegimeKind.range =>
      { regime := RegimeKind.range
        recommendation := "Trade: Rejection (Fade)"
        color := "#808080" }

/-- The regime block of `calculateSwingZone` (source lines 301-356): guarded
by `showRegime && closes.length >= slowMALength`, then by
`!isNaN(fastMA[currentIndex]) && !isNaN(slowMA[currentIndex]) && prevIndex >= 0`
(`prevIndex ≥ 0` is `2 ≤ closes.length`); note the source never checks the
previous SMA values for `NaN` — comparisons against them simply come out
false, JS-style. -/
def regimeOfCloses (closes : List ℚ) (showRegime : Bool)
    (fastMALength slowMALength : ℕ) : Option MarketRegime :=
  if showRegime = true ∧ slowMALength ≤ closes.length then
    if ((calculateSMA closes fastMALength).getD (closes.length - 1) none).isSome = true ∧
        ((calculateSMA closes slowMALength).getD (closes.length - 1) none).isSome = true ∧
        2 ≤ closes.length then
      some (regimeInfo
        (if numGt ((calculateSMA closes fastMALength).getD (closes.length - 1) none)
              ((calculateSMA closes slowMALength).getD (closes.length - 1) none) = true ∧
            numGt ((calculateSMA closes fastMALength).getD (closes.length - 1) none)
              ((calculateSMA closes fastMALength).getD (closes.length - 1 - 1) none) = true ∧
            numGt ((calculateSMA closes slowMALength).getD (closes.length - 1) none)
              ((calculateSMA closes slowMALength).getD (closes.length - 1 - 1) none) = true ∧
            numGt (some (closes.getD (closes.length - 1) 0))
              ((calculateSMA closes fastMALength).getD (closes.length - 1) none) = true then
          RegimeKind.bullTrend
        else if numLt ((calculateSMA closes fastMALength).getD (closes.length - 1) none)
              ((calculateSMA closes slowMALength).getD (closes.length - 1) none) = true ∧
            numLt ((calculateSMA closes fastMALength).getD (closes.length - 1) none)
              ((calculateSMA closes fastMALength).getD (closes.length - 1 - 1) none) = true ∧
            numLt ((calculateSMA closes slowMALength).getD (closes.length - 1) none)
              ((calculateSMA closes slowMALength).getD (closes.length - 1 - 1) none) = true ∧
            numLt (some (closes.getD (closes.length - 1) 0))
              ((calculateSMA closes fastMALength).getD (closes.length - 1) none) = true then
          RegimeKind.bearTrend
        else
          RegimeKind.range))
    else none
  else none

/-- The JS `array.slice(-n)` for a natural `n`: the last `n` elements, except
that `slice(-0)` is `slice(0)`, the whole array. -/
def sliceLast (l : List SwingPoint) (n : ℕ) : List SwingPoint :=
  if n = 0 then l else l.drop (l.length - n)

/-- Resolved `sensitivity` (destructuring default `2`). -/
def resolveSensitivity (settings : SwingZoneSettings) : ℕ :=
  settings.sensitivity.getD 2

/-- Resolved `showHighs` (destructuring default `true`). -/
def resolveShowHighs (settings : SwingZoneSettings) : Bool :=
  settings.showHighs.getD true

/-- Resolved `showLows` (destructuring default `true`). -/
def resolveShowLows (settings : SwingZoneSettings) : Bool :=
  settings.showLows.getD true

/-- Resolved `showRegime` (destructuring default `true`). -/
def resolveShowRegime (settings : SwingZoneSettings) : Bool :=
  settings.showRegime.getD true

/-- Resolved `fastMALength` (destructuring default `21`). -/
def resolveFastMALength (settings : SwingZoneSettings) : ℕ :=
  settings.fastMALength.getD 21

/-- Resolved `slowMALength` (destructuring default `50`). -/
def resolveSlowMALength (settings : SwingZoneSettings) : ℕ :=
  settings.slowMALength.getD 50

/-- Resolved zone cap: the source reads `settings.maxSwingPoints || 2`, a
truthiness fallback, so an explicit `0` is replaced by the default `2`. -/
def resolveMaxSwingPoints (settings : SwingZoneSettings) : ℕ :=
  match settings.maxSwingPoints with
  | none => 2
  | some m => if m = 0 then 2 else m

/-- Resolved `enableRays` (destructuring default `false`). -/
def resolveEnableRays (settings : SwingZoneSettings) : Bool :=
  settings.enableRays.getD false

/-- Resolved `raySensitivity` (destructuring default `2`). -/
def resolveRaySensitivity (settings : SwingZoneSettings) : ℕ :=
  settings.raySensitivity.getD 2

/-- Resolved `numRaysToShow` (destructuring default `3`). -/
def resolveNumRaysToShow (settings : SwingZoneSettings) : ℕ :=
  settings.numRaysToShow.getD 3

/-- The mutable state of a scan loop: the two output arrays and the two
dedup index sets (`detectedHighIndices` / `detectedLowIndices`, kept as
lists, newest first, mirroring `Set.add`). -/
structure ScanState where
  swingHighs : List SwingPoint := []
  swingLows : List SwingPoint := []
  detectedHigh : List ℕ := []
  detectedLow : List ℕ := []
  deriving DecidableEq

/-- One iteration of a scan loop at index `i`: the bar under test is
`i - s`; the high side is checked first, then the low side, each guarded by
its check flag and its dedup set, pushing onto the end of its array.
`emitHigh`/`emitLow` package the pivot test and point construction of the
zone and ray variants. -/
def scanStep (s : ℕ) (checkHigh checkLow : Bool)
    (emitHigh emitLow : ℕ → Option SwingPoint)
    (st : ScanState) (i : ℕ) : ScanState :=
  let pivotBarIndex := i - s
  let st1 :=
    if checkHigh = true ∧ pivotBarIndex ∉ st.detectedHigh then
      match emitHigh pivotBarIndex with
      | some pt =>
          { st with
            swingHighs := st.swingHighs ++ [pt]
            detectedHigh := pivotBarIndex :: st.detectedHigh }
      | none => st
    else st
  if checkLow = true ∧ pivotBarIndex ∉ st1.detectedLow then
    match emitLow pivotBarIndex with
    | some pt =>
        { st1 with
          swingLows := st1.swingLows ++ [pt]
          detectedLow := pivotBarIndex :: st1.detectedLow }
    | none => st1
  else st1

/-- The zone emitter for highs: the pivot's price is the bar's high. -/
def zoneEmitHigh (highs : List ℚ) (times : List ℤ) (s : ℕ) (p : ℕ) : Option SwingPoint :=
  (pivotHigh highs s s p).map fun v =>
    { barIndex := p, price := v, type := SwingType.high, time := times.getD p 0 }

/-- The zone emitter for lows: the pivot's price is the bar's low. -/
def zoneEmitLow (lows : List ℚ) (times : List ℤ) (s : ℕ) (p : ℕ) : Option SwingPoint :=
  (pivotLow lows s s p).map fun v =>
    { barIndex := p, price := v, type := SwingType.low, time := times.getD p 0 }

/-- The zone scan stopped after processing every scan index `< upTo`: the
source loop runs `i` over `[sensitivity*2, len - sensitivity)`, so the
processed prefix is `range' (s*2) (min (len - s - s*2) (upTo - s*2))`.
`upTo = len` gives the whole loop. -/
def zoneScanStateUpTo (ohlcData : List Candle) (settings : SwingZoneSettings)
    (upTo : ℕ) : ScanState :=
  let s := resolveSensitivity settings
  let highs := ohlcData.map Candle.high
  let lows := ohlcData.map Candle.low
  let times := ohlcData.map Candle.timestamp
  (List.range' (s * 2) (min (ohlcData.length - s - s * 2) (upTo - s * 2))).foldl
    (scanStep s (resolveShowHighs settings) (resolveShowLows settings)
      (zoneEmitHigh highs times s) (zoneEmitLow lows times s))
    {}

/-- The completed zone scan (source lines 250-294): loop `i` from
`sensitivity*2` to `ohlcData.length - sensitivity` exclusive. -/
def zoneScanState (ohlcData : List Candle) (settings : SwingZoneSettings) : ScanState :=
  let s := resolveSensitivity settings
  let highs := ohlcData.map Candle.high
  let lows := ohlcData.map Candle.low
  let times := ohlcData.map Candle.timestamp
  (List.range' (s * 2) (ohlcData.length - s - s * 2)).foldl
    (scanStep s (resolveShowHighs settings) (resolveShowLows settings)
      (zoneEmitHigh highs times s) (zoneEmitLow lows times s))
    {}

/-- The function `calculateSwingZone`: zone scan, truncation to the last
`maxSwingPoints` entries per side (`slice(-maxSwingPoints)`), and the
regime block. -/
def calculateSwingZone (ohlcData : List Candle)
    (settings : SwingZoneSettings := {}) : SwingZoneResult :=
  let st := zoneScanState ohlcData settings
  let maxSwingPoints := resolveMaxSwingPoints settings
  { swingHighs := sliceLast st.swingHighs maxSwingPoints
    swingLows := sliceLast st.swingLows maxSwingPoints
    regime := regimeOfCloses (ohlcData.map Candle.close) (resolveShowRegime settings)
      (resolveFastMALength settings) (resolveSlowMALength settings) }

/-- The ray emitter for highs: the pivot test runs on the highs, but the
emitted price is the close of the pivot bar. -/
def rayEmitHigh (highs closes : List ℚ) (times : List ℤ) (rs : ℕ) (p : ℕ) :
    Option SwingPoint :=
  (pivotHigh highs rs rs p).map fun _ =>
    { barIndex := p, price := closes.getD p 0, type := SwingType.high, time := times.getD p 0 }

/-- The ray emitter for lows: the pivot test runs on the lows, but the
emitted price is the close of the pivot bar. -/
def rayEmitLow (lows closes : List ℚ) (times : List ℤ) (rs : ℕ) (p : ℕ) :
    Option SwingPoint :=
  (pivotLow lows rs rs p).map fun _ =>
    { barIndex := p, price := closes.getD p 0, type := SwingType.low, time := times.getD p 0 }

/-- The completed ray scan (source lines 507-549): same loop shape with
`raySensitivity`, both sides always checked (no show flags). -/
def rayScanState (ohlcData : List Candle) (settings : SwingZoneSettings) : ScanState :=
  let rs := resolveRaySensitivity settings
  let highs := ohlcData.map Candle.high
  let lows := ohlcData.map Candle.low
  let closes := ohlcData.map Candle.close
  let times := ohlcData.map Candle.timestamp
  (List.range' (rs * 2) (ohlcData.length - rs - rs * 2)).foldl
    (scanStep rs true true
      (rayEmitHigh highs closes times rs) (rayEmitLow lows closes times rs))
    {}

/-- The function `calculateSwingRays`: short-circuits to two empty lists when
`enableRays` resolves to `false`, otherwise runs the ray scan and keeps the
last `numRaysToShow` entries per side (`slice(-numRaysToShow)`). -/
def calculateSwingRays (ohlcData : List Candle)
    (settings : SwingZoneSettings := {}) : SwingRaysResult :=
  if resolveEnableRays settings = false then
    { rayHighs := [], rayLows := [] }
  else
    let st := rayScanState ohlcData settings
    let numRaysToShow := resolveNumRaysToShow settings
    { rayHighs := sliceLast st.swingHighs numRaysToShow
      rayLows := sliceLast st.swingLows numRaysToShow }

/-- The spec's 10-candle E2E series: highs `[1,2,3,10,3,2,1,5,6,7]`, and
(immaterial to the E2E assertion, which is about highs) low and close equal
to the high, timestamp equal to the index. -/
def specSeries : List Candle :=
  [⟨1, 1, 1, 0⟩, ⟨2, 2, 2, 1⟩, ⟨3, 3, 3, 2⟩, ⟨10, 10, 10, 3⟩, ⟨3, 3, 3, 4⟩,
    ⟨2, 2, 2, 5⟩, ⟨1, 1, 1, 6⟩, ⟨5, 5, 5, 7⟩, ⟨6, 6, 6, 8⟩, ⟨7, 7, 7, 9⟩]

example : (calculateSwingZone specSeries {}).swingHighs =
    [⟨3, 10, SwingType.high, 3⟩] := by decide

example : (calculateSwingZone specSeries {}).swingLows = [] := by decide

/-! ## Characterization of the pivot detectors -/

theorem pivotHigh_eq_some_iff (highs : List ℚ) (l r idx : ℕ) (v : ℚ) :
    pivotHigh highs l r idx = some v ↔
      l ≤ idx ∧ idx + r < highs.length ∧ v = highs.getD idx 0 ∧
      (∀ j < idx, idx - l ≤ j → highs.getD j 0 < highs.getD idx 0) ∧
      (∀ j ≤ idx + r, idx < j → highs.getD j 0 < highs.getD idx 0) := by
  unfold pivotHigh
  split_ifs with h1 h2
  · constructor
    · intro h; cases h
    · rintro ⟨ha, hb, -⟩; omega
  · simp only [Bool.and_eq_true, List.all_eq_true, decide_eq_true_eq,
      List.mem_range'_1] at h2
    obtain ⟨hL, hR⟩ := h2
    constructor
    · intro h
      have hv := Option.some.inj h
      refine ⟨by omega, by omega, hv.symm, ?_, ?_⟩
      · intro j hj1 hj2
        exact hL j ⟨hj2, by omega⟩
      · intro j hj1 hj2
        exact hR j ⟨by omega, by omega⟩
    · rintro ⟨-, -, rfl, -, -⟩; rfl
  · constructor
    · intro h; cases h
    · rintro ⟨ha, hb, rfl, hAllL, hAllR⟩
      exfalso
      apply h2
      simp only [Bool.and_eq_true, List.all_eq_true, decide_eq_true_eq,
        List.mem_range'_1]
      constructor
      · rintro j ⟨hj1, hj2⟩
        exact hAllL j (by omega) (by omega)
      · rintro j ⟨hj1, hj2⟩
        exact hAllR j (by omega) (by omega)

theorem pivotLow_eq_some_iff (lows : List ℚ) (l r idx : ℕ) (v : ℚ) :
    pivotLow lows l r idx = some v ↔
      l ≤ idx ∧ idx + r < lows.length ∧ v = lows.getD idx 0 ∧
      (∀ j < idx, idx - l ≤ j → lows.getD idx 0 < lows.getD j 0) ∧
      (∀ j ≤ idx + r, idx < j → lows.getD idx 0 < lows.getD j 0) := by
  unfold pivotLow
  split_ifs with h1 h2
  · constructor
    · intro h; cases h
    · rintro ⟨ha, hb, -⟩; omega
  · simp only [Bool.and_eq_true, List.all_eq_true, decide_eq_true_eq,
      List.mem_range'_1] at h2
    obtain ⟨hL, hR⟩ := h2
    constructor
    · intro h
      have hv := Option.some.inj h
      refine ⟨by omega, by omega, hv.symm, ?_, ?_⟩
      · intro j hj1 hj2
        exact hL j ⟨hj2, by omega⟩
      · intro j hj1 hj2
        exact hR j ⟨by omega, by omega⟩
    · rintro ⟨-, -, rfl, -, -⟩; rfl
  · constructor
    · intro h; cases h
    · rintro ⟨ha, hb, rfl, hAllL, hAllR⟩
      exfalso
      apply h2
      simp only [Bool.and_eq_true, List.all_eq_true, decide_eq_true_eq,
        List.mem_range'_1]
      constructor
      · rintro j ⟨hj1, hj2⟩
        exact hAllL j (by omega) (by omega)
      · rintro j ⟨hj1, hj2⟩
        exact hAllR j (by omega) (by omega)

theorem pivotHigh_price (highs : List ℚ) (l r idx : ℕ) (v : ℚ)
    (h : pivotHigh highs l r idx = some v) : v = highs.getD idx 0 :=
  ((pivotHigh_eq_some_iff highs l r idx v).1 h).2.2.1

theorem pivotLow_price (lows : List ℚ) (l r idx : ℕ) (v : ℚ)
    (h : pivotLow lows l r idx = some v) : v = lows.getD idx 0 :=
  ((pivotLow_eq_some_iff lows l r idx v).1 h).2.2.1

/-! ## Characterization of the scan loop -/

theorem scanStep_eq (s : ℕ) (ch cl : Bool) (eh el : ℕ → Option SwingPoint)
    (st : ScanState) (i : ℕ)
    (hh : (i - s) ∉ st.detectedHigh) (hl : (i - s) ∉ st.detectedLow) :
    scanStep s ch cl eh el st i =
      { swingHighs := st.swingHighs ++ (if ch = true then eh (i - s) else none).toList
        swingLows := st.swingLows ++ (if cl = true then el (i - s) else none).toList
        detectedHigh := if ch = true ∧ (eh (i - s)).isSome = true then
          (i - s) :: st.detectedHigh else st.detectedHigh
        detectedLow := if cl = true ∧ (el (i - s)).isSome = true then
          (i - s) :: st.detectedLow else st.detectedLow } := by
  unfold scanStep
  cases ch <;> cases cl <;>
    cases heh : eh (i - s) <;> cases hel : el (i - s) <;>
      simp [hh, hl, heh, hel]

/-- A fresh `Option.toList` prepended as the head step of a `filterMap`. -/
theorem toList_append_filterMap (f : ℕ → Option SwingPoint) (l : List ℕ) (x : ℕ) :
    (f x).toList ++ l.filterMap f = (x :: l).filterMap f := by
  cases h : f x <;> simp [List.filterMap_cons, h]

theorem scan_foldl_spec (s : ℕ) (ch cl : Bool) (eh el : ℕ → Option SwingPoint) :
    ∀ (n a : ℕ) (st : ScanState), s ≤ a →
      (∀ q ∈ st.detectedHigh, q + s < a) →
      (∀ q ∈ st.detectedLow, q + s < a) →
      ((List.range' a n).foldl (scanStep s ch cl eh el) st).swingHighs =
          st.swingHighs ++
            ((List.range' a n).filterMap fun i => if ch = true then eh (i - s) else none) ∧
      ((List.range' a n).foldl (scanStep s ch cl eh el) st).swingLows =
          st.swingLows ++
            ((List.range' a n).filterMap fun i => if cl = true then el (i - s) else none) ∧
      (∀ q ∈ ((List.range' a n).foldl (scanStep s ch cl eh el) st).detectedHigh,
        q + s < a + n) ∧
      (∀ q ∈ ((List.range' a n).foldl (scanStep s ch cl eh el) st).detectedLow,
        q + s < a + n) := by
  intro n
  induction n with
  | zero =>
      intro a st hs hdh hdl
      simp only [List.range'_zero, List.foldl_nil, List.filterMap_nil,
        List.append_nil, Nat.add_zero]
      exact ⟨trivial, trivial, hdh, hdl⟩
  | succ n ih =>
      intro a st hs hdh hdl
      have hfh : (a - s) ∉ st.detectedHigh := fun hmem => by
        have := hdh _ hmem; omega
      have hfl : (a - s) ∉ st.detectedLow := fun hmem => by
        have := hdl _ hmem; omega
      rw [List.range'_succ, List.foldl_cons, scanStep_eq s ch cl eh el st a hfh hfl]
      have hdh' : ∀ q ∈ (if ch = true ∧ (eh (a - s)).isSome = true then
          (a - s) :: st.detectedHigh else st.detectedHigh), q + s < a + 1 := by
        split_ifs
        · intro q hq
          rcases List.mem_cons.1 hq with h | h
          · subst h; omega
          · have := hdh q h; omega
        · intro q hq; have := hdh q hq; omega
      have hdl' : ∀ q ∈ (if cl = true ∧ (el (a - s)).isSome = true then
          (a - s) :: st.detectedLow else st.detectedLow), q + s < a + 1 := by
        split_ifs
        · intro q hq
          rcases List.mem_cons.1 hq with h | h
          · subst h; omega
          · have := hdl q h; omega
        · intro q hq; have := hdl q hq; omega
      obtain ⟨ihH, ihL, ihDH, ihDL⟩ := ih (a + 1)
        { swingHighs := st.swingHighs ++ (if ch = true then eh (a - s) else none).toList
          swingLows := st.swingLows ++ (if cl = true then el (a - s) else none).toList
          detectedHigh := if ch = true ∧ (eh (a - s)).isSome = true then
            (a - s) :: st.detectedHigh else st.detectedHigh
          detectedLow := if cl = true ∧ (el (a - s)).isSome = true then
            (a - s) :: st.detectedLow else st.detectedLow }
        (by omega) hdh' hdl'
      refine ⟨?_, ?_, ?_, ?_⟩
      · rw [ihH]
        simp only [List.append_assoc]
        congr 1
        rcases hch : ch with - | -
        · simp [List.filterMap_cons]
        · exact toList_append_filterMap
            (fun i => if true = true then eh (i - s) else none)
            (List.range' (a + 1) n) a
      · rw [ihL]
        simp only [List.append_assoc]
        congr 1
        rcases hcl : cl with - | -
        · simp [List.filterMap_cons]
        · exact toList_append_filterMap
            (fun i => if true = true then el (i - s) else none)
            (List.range' (a + 1) n) a
      · intro q hq; have := ihDH q hq; omega
      · intro q hq; have := ihDL q hq; omega

theorem scan_foldl_swingHighs (s : ℕ) (ch cl : Bool) (eh el : ℕ → Option SwingPoint)
    (n a : ℕ) (hs : s ≤ a) :
    ((List.range' a n).foldl (scanStep s ch cl eh el) ({} : ScanState)).swingHighs =
      (List.range' a n).filterMap fun i => if ch = true then eh (i - s) else none := by
  have h := scan_foldl_spec s ch cl eh el n a {} hs (by simp) (by simp)
  simpa using h.1

theorem scan_foldl_swingLows (s : ℕ) (ch cl : Bool) (eh el : ℕ → Option SwingPoint)
    (n a : ℕ) (hs : s ≤ a) :
    ((List.range' a n).foldl (scanStep s ch cl eh el) ({} : ScanState)).swingLows =
      (List.range' a n).filterMap fun i => if cl = true then el (i - s) else none := by
  have h := scan_foldl_spec s ch cl eh el n a {} hs (by simp) (by simp)
  simpa using h.2.1

theorem mem_scan_foldl_highs_iff (s : ℕ) (ch cl : Bool) (eh el : ℕ → Option SwingPoint)
    (n a : ℕ) (hs : s ≤ a) (pt : SwingPoint) :
    pt ∈ ((List.range' a n).foldl (scanStep s ch cl eh el) ({} : ScanState)).swingHighs ↔
      ch = true ∧ ∃ i, a ≤ i ∧ i < a + n ∧ eh (i - s) = some pt := by
  rw [scan_foldl_swingHighs s ch cl eh el n a hs, List.mem_filterMap]
  constructor
  · rintro ⟨i, hi, hf⟩
    rcases List.mem_range'_1.1 hi with ⟨h1, h2⟩
    rcases hch : ch with - | -
    · rw [hch] at hf; simp at hf
    · rw [hch] at hf; simp only [if_pos rfl] at hf
      exact ⟨rfl, i, h1, h2, hf⟩
  · rintro ⟨hch, i, h1, h2, hf⟩
    exact ⟨i, List.mem_range'_1.2 ⟨h1, h2⟩, by rw [hch]; simpa using hf⟩

theorem mem_scan_foldl_lows_iff (s : ℕ) (ch cl : Bool) (eh el : ℕ → Option SwingPoint)
    (n a : ℕ) (hs : s ≤ a) (pt : SwingPoint) :
    pt ∈ ((List.range' a n).foldl (scanStep s ch cl eh el) ({} : ScanState)).swingLows ↔
      cl = true ∧ ∃ i, a ≤ i ∧ i < a + n ∧ el (i - s) = some pt := by
  rw [scan_foldl_swingLows s ch cl eh el n a hs, List.mem_filterMap]
  constructor
  · rintro ⟨i, hi, hf⟩
    rcases List.mem_range'_1.1 hi with ⟨h1, h2⟩
    rcases hcl : cl with - | -
    · rw [hcl] at hf; simp at hf
    · rw [hcl] at hf; simp only [if_pos rfl] at hf
      exact ⟨rfl, i, h1, h2, hf⟩
  · rintro ⟨hcl, i, h1, h2, hf⟩
    exact ⟨i, List.mem_range'_1.2 ⟨h1, h2⟩, by rw [hcl]; simpa using hf⟩

/-- In a `filterMap` over indices all at least `s`, whose emitted points
carry `barIndex = i - s`, no point with `barIndex = k` appears when
`k + s` is not among the indices. -/
theorem filter_barIndex_filterMap_eq_nil (s k : ℕ) (f : ℕ → Option SwingPoint)
    (hf : ∀ i pt, f i = some pt → pt.barIndex = i - s) :
    ∀ (l : List ℕ), (∀ i ∈ l, s ≤ i) → (k + s) ∉ l →
      (l.filterMap f).filter (fun pt => pt.barIndex == k) = [] := by
  intro l
  induction l with
  | nil => intro _ _; rfl
  | cons j l ih =>
      intro hge hk
      rw [List.filterMap_cons]
      cases hfj : f j with
      | none =>
          exact ih (fun i hi => hge i (List.mem_cons_of_mem j hi))
            (fun hmem => hk (List.mem_cons_of_mem j hmem))
      | some pt =>
          have hb := hf j pt hfj
          have hj : s ≤ j := hge j (List.mem_cons_self j l)
          have hne : pt.barIndex ≠ k := by
            rw [hb]
            intro heq
            exact hk (by
              have : j = k + s := by omega
              rw [← this]
              exact List.mem_cons_self j l)
          rw [List.filter_cons_of_neg (by simpa using hne)]
          exact ih (fun i hi => hge i (List.mem_cons_of_mem j hi))
            (fun hmem => hk (List.mem_cons_of_mem j hmem))

/-- Same setting: over distinct indices, at most one point with a given
`barIndex` is ever emitted. -/
theorem filter_barIndex_filterMap_le_one (s k : ℕ) (f : ℕ → Option SwingPoint)
    (hf : ∀ i pt, f i = some pt → pt.barIndex = i - s) :
    ∀ (l : List ℕ), l.Nodup → (∀ i ∈ l, s ≤ i) →
      ((l.filterMap f).filter (fun pt => pt.barIndex == k)).length ≤ 1 := by
  intro l
  induction l with
  | nil => intro _ _; simp
  | cons j l ih =>
      intro hnd hge
      rw [List.filterMap_cons]
      cases hfj : f j with
      | none =>
          exact ih (List.Nodup.of_cons hnd)
            (fun i hi => hge i (List.mem_cons_of_mem j hi))
      | some pt =>
          by_cases hk : pt.barIndex = k
          · rw [List.filter_cons_of_pos (by simpa using hk)]
            have hj : s ≤ j := hge j (List.mem_cons_self j l)
            have hjk : j = k + s := by
              have := hf j pt hfj; omega
            have hnil : (l.filterMap f).filter (fun pt => pt.barIndex == k) = [] := by
              refine filter_barIndex_filterMap_eq_nil s k f hf l
                (fun i hi => hge i (List.mem_cons_of_mem j hi)) ?_
              rw [← hjk]
              exact (List.nodup_cons.1 hnd).1
            rw [hnil]
            simp
          · rw [List.filter_cons_of_neg (by simpa using hk)]
            exact ih (List.Nodup.of_cons hnd)
              (fun i hi => hge i (List.mem_cons_of_mem j hi))

/-! ## Lemmas about the recency cap (`slice(-n)`) -/

theorem sliceLast_suffix (l : List SwingPoint) (n : ℕ) : sliceLast l n <:+ l := by
  unfold sliceLast
  split_ifs
  · exact List.suffix_refl l
  · exact List.drop_suffix _ l

theorem sliceLast_subset (l : List SwingPoint) (n : ℕ) : sliceLast l n ⊆ l :=
  (sliceLast_suffix l n).subset

theorem sliceLast_length (l : List SwingPoint) (n : ℕ) (h0 : n ≠ 0)
    (h : n ≤ l.length) : (sliceLast l n).length = n := by
  unfold sliceLast
  rw [if_neg h0, List.length_drop]
  omega

theorem sliceLast_length_le (l : List SwingPoint) (n : ℕ) (h0 : n ≠ 0) :
    (sliceLast l n).length ≤ n := by
  unfold sliceLast
  rw [if_neg h0, List.length_drop]
  omega

theorem sliceLast_ne_nil (l : List SwingPoint) (n : ℕ) (h0 : n ≠ 0)
    (hl : l ≠ []) : sliceLast l n ≠ [] := by
  unfold sliceLast
  rw [if_neg h0]
  have hlen : 0 < l.length := List.length_pos.2 hl
  intro h
  have := congrArg List.length h
  rw [List.length_drop] at this
  simp at this
  omega

/-! ## Zone- and ray-level characterizations -/

theorem le_twice (s : ℕ) : s ≤ s * 2 := by omega

theorem zoneScanState_eq_upTo (ohlc : List Candle) (settings : SwingZoneSettings) :
    zoneScanState ohlc settings = zoneScanStateUpTo ohlc settings ohlc.length := by
  simp only [zoneScanState, zoneScanStateUpTo]
  rw [Nat.min_eq_left (Nat.sub_le_sub_right (Nat.sub_le ohlc.length
    (resolveSensitivity settings)) (resolveSensitivity settings * 2))]

theorem mem_zoneUpTo_highs_iff (ohlc : List Candle) (settings : SwingZoneSettings)
    (upTo k : ℕ) (v : ℚ) (t : ℤ) :
    (⟨k, v, SwingType.high, t⟩ : SwingPoint) ∈
        (zoneScanStateUpTo ohlc settings upTo).swingHighs ↔
      resolveShowHighs settings = true ∧
      resolveSensitivity settings * 2 ≤ k + resolveSensitivity settings ∧
      k + resolveSensitivity settings < ohlc.length - resolveSensitivity settings ∧
      k + resolveSensitivity settings < upTo ∧
      pivotHigh (ohlc.map Candle.high) (resolveSensitivity settings)
        (resolveSensitivity settings) k = some v ∧
      t = (ohlc.map Candle.timestamp).getD k 0 := by
  have h : (⟨k, v, SwingType.high, t⟩ : SwingPoint) ∈
      (zoneScanStateUpTo ohlc settings upTo).swingHighs ↔
        resolveShowHighs settings = true ∧
        ∃ i, resolveSensitivity settings * 2 ≤ i ∧
          i < resolveSensitivity settings * 2 +
            min (ohlc.length - resolveSensitivity settings - resolveSensitivity settings * 2)
              (upTo - resolveSensitivity settings * 2) ∧
          zoneEmitHigh (ohlc.map Candle.high) (ohlc.map Candle.timestamp)
            (resolveSensitivity settings) (i - resolveSensitivity settings) =
            some ⟨k, v, SwingType.high, t⟩ :=
    mem_scan_foldl_highs_iff (resolveSensitivity settings) (resolveShowHighs settings)
      (resolveShowLows settings) _ _ _ _ (le_twice _) _
  rw [h]
  constructor
  · rintro ⟨hch, i, h1, h2, hemit⟩
    unfold zoneEmitHigh at hemit
    rw [Option.map_eq_some'] at hemit
    obtain ⟨w, hw, heq⟩ := hemit
    obtain ⟨hik, hwv, -, hts⟩ : i - resolveSensitivity settings = k ∧ w = v ∧
        SwingType.high = SwingType.high ∧
        (ohlc.map Candle.timestamp).getD (i - resolveSensitivity settings) 0 = t := by
      simpa using heq
    rw [hik] at hw hts
    subst hwv
    have hcon : resolveSensitivity settings * 2 ≤ k + resolveSensitivity settings ∧
        k + resolveSensitivity settings < ohlc.length - resolveSensitivity settings ∧
        k + resolveSensitivity settings < upTo := by
      clear hts hw hch h
      omega
    exact ⟨hch, hcon.1, hcon.2.1, hcon.2.2, hw, hts.symm⟩
  · rintro ⟨hch, h1, h2, h3, hpiv, ht⟩
    refine ⟨hch, k + resolveSensitivity settings, by omega, by omega, ?_⟩
    unfold zoneEmitHigh
    rw [show k + resolveSensitivity settings - resolveSensitivity settings = k by omega,
      hpiv]
    simp [ht]

theorem mem_zoneUpTo_lows_iff (ohlc : List Candle) (settings : SwingZoneSettings)
    (upTo k : ℕ) (v : ℚ) (t : ℤ) :
    (⟨k, v, SwingType.low, t⟩ : SwingPoint) ∈
        (zoneScanStateUpTo ohlc settings upTo).swingLows ↔
      resolveShowLows settings = true ∧
      resolveSensitivity settings * 2 ≤ k + resolveSensitivity settings ∧
      k + resolveSensitivity settings < ohlc.length - resolveSensitivity settings ∧
      k + resolveSensitivity settings < upTo ∧
      pivotLow (ohlc.map Candle.low) (resolveSensitivity settings)
        (resolveSensitivity settings) k = some v ∧
      t = (ohlc.map Candle.timestamp).getD k 0 := by
  have h : (⟨k, v, SwingType.low, t⟩ : SwingPoint) ∈
      (zoneScanStateUpTo ohlc settings upTo).swingLows ↔
        resolveShowLows settings = true ∧
        ∃ i, resolveSensitivity settings * 2 ≤ i ∧
          i < resolveSensitivity settings * 2 +
            min (ohlc.length - resolveSensitivity settings - resolveSensitivity settings * 2)
              (upTo - resolveSensitivity settings * 2) ∧
          zoneEmitLow (ohlc.map Candle.low) (ohlc.map Candle.timestamp)
            (resolveSensitivity settings) (i - resolveSensitivity settings) =
            some ⟨k, v, SwingType.low, t⟩ :=
    mem_scan_foldl_lows_iff (resolveSensitivity settings) (resolveShowHighs settings)
      (resolveShowLows settings) _ _ _ _ (le_twice _) _
  rw [h]
  constructor
  · rintro ⟨hcl, i, h1, h2, hemit⟩
    unfold zoneEmitLow at hemit
    rw [Option.map_eq_some'] at hemit
    obtain ⟨w, hw, heq⟩ := hemit
    obtain ⟨hik, hwv, -, hts⟩ : i - resolveSensitivity settings = k ∧ w = v ∧
        SwingType.low = SwingType.low ∧
        (ohlc.map Candle.timestamp).getD (i - resolveSensitivity settings) 0 = t := by
      simpa using heq
    rw [hik] at hw hts
    subst hwv
    have hcon : resolveSensitivity settings * 2 ≤ k + resolveSensitivity settings ∧
        k + resolveSensitivity settings < ohlc.length - resolveSensitivity settings ∧
        k + resolveSensitivity settings < upTo := by
      clear hts hw hcl h
      omega
    exact ⟨hcl, hcon.1, hcon.2.1, hcon.2.2, hw, hts.symm⟩
  · rintro ⟨hcl, h1, h2, h3, hpiv, ht⟩
    refine ⟨hcl, k + resolveSensitivity settings, by omega, by omega, ?_⟩
    unfold zoneEmitLow
    rw [show k + resolveSensitivity settings - resolveSensitivity settings = k by omega,
      hpiv]
    simp [ht]

theorem zoneUpTo_highs_filter_le_one (ohlc : List Candle) (settings : SwingZoneSettings)
    (upTo k : ℕ) :
    ((zoneScanStateUpTo ohlc settings upTo).swingHighs.filter
      (fun pt => pt.barIndex == k)).length ≤ 1 := by
  have hchar : (zoneScanStateUpTo ohlc settings upTo).swingHighs =
      (List.range' (resolveSensitivity settings * 2)
        (min (ohlc.length - resolveSensitivity settings - resolveSensitivity settings * 2)
          (upTo - resolveSensitivity settings * 2))).filterMap
        (fun i => if resolveShowHighs settings = true then
          zoneEmitHigh (ohlc.map Candle.high) (ohlc.map Candle.timestamp)
            (resolveSensitivity settings) (i - resolveSensitivity settings) else none) :=
    scan_foldl_swingHighs (resolveSensitivity settings) (resolveShowHighs settings)
      (resolveShowLows settings) _ _ _ _ (by omega)
  rw [hchar]
  refine filter_barIndex_filterMap_le_one (resolveSensitivity settings) k _ ?_ _ ?_ ?_
  · intro i pt hpt
    split_ifs at hpt
    unfold zoneEmitHigh at hpt
    rw [Option.map_eq_some'] at hpt
    obtain ⟨w, -, heq⟩ := hpt
    rw [← heq]
  · apply List.nodup_range'
    exact Nat.one_pos
  · intro i hi
    have := (List.mem_range'_1.1 hi).1
    omega

/-- Everything a membership in the raw zone high list implies: window
bounds, price = the bar's high, and the `high` tag. -/
theorem zone_raw_highs_spec (ohlc : List Candle) (settings : SwingZoneSettings)
    (upTo : ℕ) (pt : SwingPoint)
    (hpt : pt ∈ (zoneScanStateUpTo ohlc settings upTo).swingHighs) :
    resolveShowHighs settings = true ∧
    resolveSensitivity settings * 2 ≤ pt.barIndex + resolveSensitivity settings ∧
    pt.barIndex + resolveSensitivity settings < ohlc.length - resolveSensitivity settings ∧
    pt.barIndex + resolveSensitivity settings < upTo ∧
    pt.price = (ohlc.map Candle.high).getD pt.barIndex 0 ∧
    pt.type = SwingType.high := by
  have h := (mem_scan_foldl_highs_iff (resolveSensitivity settings)
    (resolveShowHighs settings) (resolveShowLows settings)
    (zoneEmitHigh (ohlc.map Candle.high) (ohlc.map Candle.timestamp)
      (resolveSensitivity settings))
    (zoneEmitLow (ohlc.map Candle.low) (ohlc.map Candle.timestamp)
      (resolveSensitivity settings))
    (min (ohlc.length - resolveSensitivity settings - resolveSensitivity settings * 2)
      (upTo - resolveSensitivity settings * 2))
    (resolveSensitivity settings * 2) (le_twice _) pt).1 hpt
  obtain ⟨hch, i, h1, h2, hemit⟩ := h
  unfold zoneEmitHigh at hemit
  rw [Option.map_eq_some'] at hemit
  obtain ⟨w, hw, heq⟩ := hemit
  have hprice := pivotHigh_price _ _ _ _ _ hw
  obtain ⟨hbi, hpr, hty, -⟩ : pt.barIndex = i - resolveSensitivity settings ∧
      pt.price = w ∧ pt.type = SwingType.high ∧
      pt.time = (ohlc.map Candle.timestamp).getD (i - resolveSensitivity settings) 0 := by
    rw [← heq]
    exact ⟨rfl, rfl, rfl, rfl⟩
  refine ⟨hch, by omega, by clear hw hch hpr hty; omega,
    by clear hw hch hpr hty; omega, ?_, hty⟩
  rw [hpr, hbi]
  exact hprice

/-- Everything a membership in the raw zone low list implies. -/
theorem zone_raw_lows_spec (ohlc : List Candle) (settings : SwingZoneSettings)
    (upTo : ℕ) (pt : SwingPoint)
    (hpt : pt ∈ (zoneScanStateUpTo ohlc settings upTo).swingLows) :
    resolveShowLows settings = true ∧
    resolveSensitivity settings * 2 ≤ pt.barIndex + resolveSensitivity settings ∧
    pt.barIndex + resolveSensitivity settings < ohlc.length - resolveSensitivity settings ∧
    pt.barIndex + resolveSensitivity settings < upTo ∧
    pt.price = (ohlc.map Candle.low).getD pt.barIndex 0 ∧
    pt.type = SwingType.low := by
  have h := (mem_scan_foldl_lows_iff (resolveSensitivity settings)
    (resolveShowHighs settings) (resolveShowLows settings)
    (zoneEmitHigh (ohlc.map Candle.high) (ohlc.map Candle.timestamp)
      (resolveSensitivity settings))
    (zoneEmitLow (ohlc.map Candle.low) (ohlc.map Candle.timestamp)
      (resolveSensitivity settings))
    (min (ohlc.length - resolveSensitivity settings - resolveSensitivity settings * 2)
      (upTo - resolveSensitivity settings * 2))
    (resolveSensitivity settings * 2) (le_twice _) pt).1 hpt
  obtain ⟨hcl, i, h1, h2, hemit⟩ := h
  unfold zoneEmitLow at hemit
  rw [Option.map_eq_some'] at hemit
  obtain ⟨w, hw, heq⟩ := hemit
  have hprice := pivotLow_price _ _ _ _ _ hw
  obtain ⟨hbi, hpr, hty, -⟩ : pt.barIndex = i - resolveSensitivity settings ∧
      pt.price = w ∧ pt.type = SwingType.low ∧
      pt.time = (ohlc.map Candle.timestamp).getD (i - resolveSensitivity settings) 0 := by
    rw [← heq]
    exact ⟨rfl, rfl, rfl, rfl⟩
  refine ⟨hcl, by omega, by clear hw hcl hpr hty; omega,
    by clear hw hcl hpr hty; omega, ?_, hty⟩
  rw [hpr, hbi]
  exact hprice

/-- Everything a membership in the raw ray high list implies: window
bounds, a confirmed high pivot at the bar, and price = the bar's close. -/
theorem ray_raw_highs_spec (ohlc : List Candle) (settings : SwingZoneSettings)
    (pt : SwingPoint) (hpt : pt ∈ (rayScanState ohlc settings).swingHighs) :
    resolveRaySensitivity settings * 2 ≤ pt.barIndex + resolveRaySensitivity settings ∧
    pt.barIndex + resolveRaySensitivity settings <
      ohlc.length - resolveRaySensitivity settings ∧
    (pivotHigh (ohlc.map Candle.high) (resolveRaySensitivity settings)
      (resolveRaySensitivity settings) pt.barIndex).isSome = true ∧
    pt.price = (ohlc.map Candle.close).getD pt.barIndex 0 ∧
    pt.type = SwingType.high := by
  have h := (mem_scan_foldl_highs_iff (resolveRaySensitivity settings) true true
    (rayEmitHigh (ohlc.map Candle.high) (ohlc.map Candle.close)
      (ohlc.map Candle.timestamp) (resolveRaySensitivity settings))
    (rayEmitLow (ohlc.map Candle.low) (ohlc.map Candle.close)
      (ohlc.map Candle.timestamp) (resolveRaySensitivity settings))
    (ohlc.length - resolveRaySensitivity settings - resolveRaySensitivity settings * 2)
    (resolveRaySensitivity settings * 2) (le_twice _) pt).1 hpt
  obtain ⟨-, i, h1, h2, hemit⟩ := h
  unfold rayEmitHigh at hemit
  rw [Option.map_eq_some'] at hemit
  obtain ⟨w, hw, heq⟩ := hemit
  obtain ⟨hbi, hpr, hty, -⟩ : pt.barIndex = i - resolveRaySensitivity settings ∧
      pt.price = (ohlc.map Candle.close).getD (i - resolveRaySensitivity settings) 0 ∧
      pt.type = SwingType.high ∧
      pt.time = (ohlc.map Candle.timestamp).getD (i - resolveRaySensitivity settings) 0 := by
    rw [← heq]
    exact ⟨rfl, rfl, rfl, rfl⟩
  refine ⟨by omega, by clear hw hpr hty; omega, ?_, by rw [hpr, hbi], hty⟩
  rw [hbi, hw]
  rfl

/-- Everything a membership in the raw ray low list implies. -/
theorem ray_raw_lows_spec (ohlc : List Candle) (settings : SwingZoneSettings)
    (pt : SwingPoint) (hpt : pt ∈ (rayScanState ohlc settings).swingLows) :
    resolveRaySensitivity settings * 2 ≤ pt.barIndex + resolveRaySensitivity settings ∧
    pt.barIndex + resolveRaySensitivity settings <
      ohlc.length - resolveRaySensitivity settings ∧
    (pivotLow (ohlc.map Candle.low) (resolveRaySensitivity settings)
      (resolveRaySensitivity settings) pt.barIndex).isSome = true ∧
    pt.price = (ohlc.map Candle.close).getD pt.barIndex 0 ∧
    pt.type = SwingType.low := by
  have h := (mem_scan_foldl_lows_iff (resolveRaySensitivity settings) true true
    (rayEmitHigh (ohlc.map Candle.high) (ohlc.map Candle.close)
      (ohlc.map Candle.timestamp) (resolveRaySensitivity settings))
    (rayEmitLow (ohlc.map Candle.low) (ohlc.map Candle.close)
      (ohlc.map Candle.timestamp) (resolveRaySensitivity settings))
    (ohlc.length - resolveRaySensitivity settings - resolveRaySensitivity settings * 2)
    (resolveRaySensitivity settings * 2) (le_twice _) pt).1 hpt
  obtain ⟨-, i, h1, h2, hemit⟩ := h
  unfold rayEmitLow at hemit
  rw [Option.map_eq_some'] at hemit
  obtain ⟨w, hw, heq⟩ := hemit
  obtain ⟨hbi, hpr, hty, -⟩ : pt.barIndex = i - resolveRaySensitivity settings ∧
      pt.price = (ohlc.map Candle.close).getD (i - resolveRaySensitivity settings) 0 ∧
      pt.type = SwingType.low ∧
      pt.time = (ohlc.map Candle.timestamp).getD (i - resolveRaySensitivity settings) 0 := by
    rw [← heq]
    exact ⟨rfl, rfl, rfl, rfl⟩
  refine ⟨by omega, by clear hw hpr hty; omega, ?_, by rw [hpr, hbi], hty⟩
  rw [hbi, hw]
  rfl

/-- The zone scan of a series of length at most `3 * sensitivity` is empty:
the loop range `[sensitivity*2, len - sensitivity)` is empty. -/
theorem zoneScanState_empty (ohlc : List Candle) (settings : SwingZoneSettings)
    (h : ohlc.length ≤ 3 * resolveSensitivity settings) :
    (zoneScanState ohlc settings).swingHighs = [] ∧
    (zoneScanState ohlc settings).swingLows = [] := by
  have hcnt : ohlc.length - resolveSensitivity settings -
      resolveSensitivity settings * 2 = 0 := by omega
  constructor
  · have hH : (zoneScanState ohlc settings).swingHighs =
        (List.range' (resolveSensitivity settings * 2)
          (ohlc.length - resolveSensitivity settings -
            resolveSensitivity settings * 2)).filterMap
          (fun i => if resolveShowHighs settings = true then
            zoneEmitHigh (ohlc.map Candle.high) (ohlc.map Candle.timestamp)
              (resolveSensitivity settings) (i - resolveSensitivity settings)
          else none) :=
      scan_foldl_swingHighs (resolveSensitivity settings)
        (resolveShowHighs settings) (resolveShowLows settings) _ _ _ _ (le_twice _)
    rw [hcnt] at hH
    simpa using hH
  · have hL : (zoneScanState ohlc settings).swingLows =
        (List.range' (resolveSensitivity settings * 2)
          (ohlc.length - resolveSensitivity settings -
            resolveSensitivity settings * 2)).filterMap
          (fun i => if resolveShowLows settings = true then
            zoneEmitLow (ohlc.map Candle.low) (ohlc.map Candle.timestamp)
              (resolveSensitivity settings) (i - resolveSensitivity settings)
          else none) :=
      scan_foldl_swingLows (resolveSensitivity settings)
        (resolveShowHighs settings) (resolveShowLows settings) _ _ _ _ (le_twice _)
    rw [hcnt] at hL
    simpa using hL

/-- The ray scan of a series of length at most `3 * raySensitivity` is
empty. -/
theorem rayScanState_empty (ohlc : List Candle) (settings : SwingZoneSettings)
    (h : ohlc.length ≤ 3 * resolveRaySensitivity settings) :
    (rayScanState ohlc settings).swingHighs = [] ∧
    (rayScanState ohlc settings).swingLows = [] := by
  have hcnt : ohlc.length - resolveRaySensitivity settings -
      resolveRaySensitivity settings * 2 = 0 := by omega
  constructor
  · have hH : (rayScanState ohlc settings).swingHighs =
        (List.range' (resolveRaySensitivity settings * 2)
          (ohlc.length - resolveRaySensitivity settings -
            resolveRaySensitivity settings * 2)).filterMap
          (fun i => if true = true then
            rayEmitHigh (ohlc.map Candle.high) (ohlc.map Candle.close)
              (ohlc.map Candle.timestamp) (resolveRaySensitivity settings)
              (i - resolveRaySensitivity settings)
          else none) :=
      scan_foldl_swingHighs (resolveRaySensitivity settings) true true _ _ _ _ (le_twice _)
    rw [hcnt] at hH
    simpa using hH
  · have hL : (rayScanState ohlc settings).swingLows =
        (List.range' (resolveRaySensitivity settings * 2)
          (ohlc.length - resolveRaySensitivity settings -
            resolveRaySensitivity settings * 2)).filterMap
          (fun i => if true = true then
            rayEmitLow (ohlc.map Candle.low) (ohlc.map Candle.close)
              (ohlc.map Candle.timestamp) (resolveRaySensitivity settings)
              (i - resolveRaySensitivity settings)
          else none) :=
      scan_foldl_swingLows (resolveRaySensitivity settings) true true _ _ _ _ (le_twice _)
    rw [hcnt] at hL
    simpa using hL

/-- Unfolding equations connecting the public results to the scans. -/
theorem calculateSwingZone_swingHighs (ohlc : List Candle) (settings : SwingZoneSettings) :
    (calculateSwingZone ohlc settings).swingHighs =
      sliceLast (zoneScanState ohlc settings).swingHighs
        (resolveMaxSwingPoints settings) := rfl

theorem calculateSwingZone_swingLows (ohlc : List Candle) (settings : SwingZoneSettings) :
    (calculateSwingZone ohlc settings).swingLows =
      sliceLast (zoneScanState ohlc settings).swingLows
        (resolveMaxSwingPoints settings) := rfl

theorem calculateSwingZone_regime (ohlc : List Candle) (settings : SwingZoneSettings) :
    (calculateSwingZone ohlc settings).regime =
      regimeOfCloses (ohlc.map Candle.close) (resolveShowRegime settings)
        (resolveFastMALength settings) (resolveSlowMALength settings) := rfl

theorem calculateSwingRays_of_enabled (ohlc : List Candle) (settings : SwingZoneSettings)
    (h : resolveEnableRays settings = true) :
    calculateSwingRays ohlc settings =
      { rayHighs := sliceLast (rayScanState ohlc settings).swingHighs
          (resolveNumRaysToShow settings)
        rayLows := sliceLast (rayScanState ohlc settings).swingLows
          (resolveNumRaysToShow settings) } := by
  unfold calculateSwingRays
  rw [h]
  rfl

/-! ## Regime classifier lemmas -/

theorem numGt_some (a b : ℚ) : numGt (some a) (some b) = decide (b < a) := rfl

theorem numLt_some (a b : ℚ) : numLt (some a) (some b) = decide (a < b) := rfl

theorem regimeInfo_regime (k : RegimeKind) : (regimeInfo k).regime = k := by
  cases k <;> rfl

/-- With all four SMA samples defined, the regime block reduces to the pure
comparison cascade on those four values and the final close. -/
theorem regimeOfCloses_of_some (closes : List ℚ) (fastLen slowLen : ℕ)
    (fc fp sc sp : ℚ)
    (hlen : slowLen ≤ closes.length) (hlen2 : 2 ≤ closes.length)
    (hfc : (calculateSMA closes fastLen).getD (closes.length - 1) none = some fc)
    (hfp : (calculateSMA closes fastLen).getD (closes.length - 1 - 1) none = some fp)
    (hsc : (calculateSMA closes slowLen).getD (closes.length - 1) none = some sc)
    (hsp : (calculateSMA closes slowLen).getD (closes.length - 1 - 1) none = some sp) :
    regimeOfCloses closes true fastLen slowLen = some (regimeInfo
      (if sc < fc ∧ fp < fc ∧ sp < sc ∧ fc < closes.getD (closes.length - 1) 0 then
        RegimeKind.bullTrend
      else if fc < sc ∧ fc < fp ∧ sc < sp ∧ closes.getD (closes.length - 1) 0 < fc then
        RegimeKind.bearTrend
      else RegimeKind.range)) := by
  unfold regimeOfCloses
  rw [if_pos ⟨rfl, hlen⟩, if_pos ⟨by rw [hfc]; rfl, by rw [hsc]; rfl, hlen2⟩,
    hfc, hfp, hsc, hsp]
  simp only [numGt_some, numLt_some, decide_eq_true_eq]

/-- With all four SMA samples defined, the regime block emits the label
decided by the comparison cascade (value-level corollary). -/
theorem regimeOfCloses_kind (closes : List ℚ) (fastLen slowLen : ℕ)
    (fc fp sc sp : ℚ)
    (hlen : slowLen ≤ closes.length) (hlen2 : 2 ≤ closes.length)
    (hfc : (calculateSMA closes fastLen).getD (closes.length - 1) none = some fc)
    (hfp : (calculateSMA closes fastLen).getD (closes.length - 1 - 1) none = some fp)
    (hsc : (calculateSMA closes slowLen).getD (closes.length - 1) none = some sc)
    (hsp : (calculateSMA closes slowLen).getD (closes.length - 1 - 1) none = some sp) :
    (regimeOfCloses closes true fastLen slowLen).map MarketRegime.regime = some
      (if sc < fc ∧ fp < fc ∧ sp < sc ∧ fc < closes.getD (closes.length - 1) 0 then
        RegimeKind.bullTrend
      else if fc < sc ∧ fc < fp ∧ sc < sp ∧ closes.getD (closes.length - 1) 0 < fc then
        RegimeKind.bearTrend
      else RegimeKind.range) := by
  rw [regimeOfCloses_of_some closes fastLen slowLen fc fp sc sp hlen hlen2 hfc hfp hsc hsp]
  rw [Option.map_some', regimeInfo_regime]

/-- The regime block (with `showRegime` resolved to `true`) yields no regime
exactly when the history is too short, a current SMA sample is undefined, or
there is no previous bar. -/
theorem regimeOfCloses_eq_none_iff (closes : List ℚ) (fastLen slowLen : ℕ) :
    regimeOfCloses closes true fastLen slowLen = none ↔
      closes.length < slowLen ∨
      (calculateSMA closes fastLen).getD (closes.length - 1) none = none ∨
      (calculateSMA closes slowLen).getD (closes.length - 1) none = none ∨
      closes.length < 2 := by
  unfold regimeOfCloses
  split_ifs with h1 h2
  · obtain ⟨hf, hs, hl2⟩ := h2
    constructor
    · intro h; cases h
    · rintro (h | h | h | h)
      · exact absurd h1.2 (by omega)
      · rw [h] at hf; cases hf
      · rw [h] at hs; cases hs
      · omega
  · constructor
    · rintro -
      by_cases hf : (calculateSMA closes fastLen).getD (closes.length - 1) none = none
      · exact Or.inr (Or.inl hf)
      by_cases hs : (calculateSMA closes slowLen).getD (closes.length - 1) none = none
      · exact Or.inr (Or.inr (Or.inl hs))
      by_cases hl2 : closes.length < 2
      · exact Or.inr (Or.inr (Or.inr hl2))
      exact absurd ⟨Option.ne_none_iff_isSome.1 hf, Option.ne_none_iff_isSome.1 hs,
        by omega⟩ h2
    · rintro -; rfl
  · constructor
    · rintro -
      left
      by_contra hlt
      exact h1 ⟨rfl, by omega⟩
    · rintro -; rfl

/-! ## Concrete series used to instantiate the claims -/

/-- Behavior of `calculateSwingRays` when `enableRays` resolves to `false` (shared by
several claims). -/
theorem calculateSwingRays_of_disabled (ohlc : List Candle)
    (settings : SwingZoneSettings) (h : resolveEnableRays settings = false) :
    calculateSwingRays ohlc settings = { rayHighs := [], rayLows := [] } := by
  unfold calculateSwingRays
  rw [h]
  rfl

/-- The resolved zone cap is never zero (an explicit zero falls back to the
default `2` through the `||` truthiness check). -/
theorem resolveMaxSwingPoints_ne_zero (settings : SwingZoneSettings) :
    resolveMaxSwingPoints settings ≠ 0 := by
  unfold resolveMaxSwingPoints
  match settings.maxSwingPoints with
  | none => decide
  | some 0 => decide
  | some (m + 1) => simp

/-- Truncation of an empty list is empty. -/
theorem sliceLast_nil (n : ℕ) : sliceLast [] n = [] := by
  unfold sliceLast
  split_ifs
  · rfl
  · exact List.drop_nil

/-- A 13-candle series with three zone high pivots (bars 2, 5, 8) and three
zone low pivots (same bars): highs `[0,0,9,0,0,9,0,0,9,0,0,0,0]`, lows the
mirror image. -/
def capSeries : List Candle :=
  [⟨0, 9, 0, 0⟩, ⟨0, 9, 0, 1⟩, ⟨9, 0, 0, 2⟩, ⟨0, 9, 0, 3⟩, ⟨0, 9, 0, 4⟩,
    ⟨9, 0, 0, 5⟩, ⟨0, 9, 0, 6⟩, ⟨0, 9, 0, 7⟩, ⟨9, 0, 0, 8⟩, ⟨0, 9, 0, 9⟩,
    ⟨0, 9, 0, 10⟩, ⟨0, 9, 0, 11⟩, ⟨0, 9, 0, 12⟩]

/-- Three candles with closes `[1, 2, 3]`: long enough for `slowMALength = 3`
but with an undefined previous slow SMA. -/
def shortSeries : List Candle :=
  [⟨1, 1, 1, 0⟩, ⟨2, 2, 2, 1⟩, ⟨3, 3, 3, 2⟩]

/-- Settings exercising the regime block with tiny MA windows. -/
def regSettings : SwingZoneSettings :=
  { showRegime := some true, fastMALength := some 2, slowMALength := some 3 }

/-- Four candles with closes `[1, 2, 3, 4]`: a rising series whose final two
fast/slow SMA samples are all defined. -/
def trendSeries : List Candle :=
  [⟨1, 1, 1, 0⟩, ⟨2, 2, 2, 1⟩, ⟨3, 3, 3, 2⟩, ⟨4, 4, 4, 3⟩]

/-- Five candles with closes `[0, 1, 2, 3, 4]`: a different series with the
same final two SMA samples and the same final close as `trendSeries`. -/
def trendSeriesB : List Candle :=
  [⟨0, 0, 0, 0⟩, ⟨1, 1, 1, 1⟩, ⟨2, 2, 2, 2⟩, ⟨3, 3, 3, 3⟩, ⟨4, 4, 4, 4⟩]

/-- The spec's 10-candle series, with the close of the spike bar (index 3)
set to 9 so that it differs from its high 10. -/
def raysSeries : List Candle :=
  [⟨1, 1, 1, 0⟩, ⟨2, 2, 2, 1⟩, ⟨3, 3, 3, 2⟩, ⟨10, 10, 9, 3⟩, ⟨3, 3, 3, 4⟩,
    ⟨2, 2, 2, 5⟩, ⟨1, 1, 1, 6⟩, ⟨5, 5, 5, 7⟩, ⟨6, 6, 6, 8⟩, ⟨7, 7, 7, 9⟩]

/-- Settings with rays enabled at the defaults. -/
def raySettings : SwingZoneSettings :=
  { enableRays := some true }

/-- Six candles with a spike at index 2 that has two strictly smaller bars
on each side, yet the series is too short (`6 ≤ 3 * 2`) for any emission. -/
def sixSeries : List Candle :=
  [⟨1, 1, 1, 0⟩, ⟨2, 2, 2, 1⟩, ⟨9, 0, 9, 2⟩, ⟨2, 2, 2, 3⟩, ⟨1, 1, 1, 4⟩,
    ⟨0, 3, 0, 5⟩]

example : (calculateSwingZone capSeries {}).swingHighs =
    [⟨5, 9, SwingType.high, 5⟩, ⟨8, 9, SwingType.high, 8⟩] := by decide

example : (calculateSwingZone capSeries {}).swingLows =
    [⟨5, 0, SwingType.low, 5⟩, ⟨8, 0, SwingType.low, 8⟩] := by decide

example : (zoneScanState capSeries {}).swingHighs.length = 3 := by decide

example : (zoneScanState capSeries {}).swingLows.length = 3 := by decide

example : (calculateSwingRays raysSeries raySettings).rayHighs =
    [⟨3, 9, SwingType.high, 3⟩] := by decide

example : (calculateSwingZone raysSeries raySettings).swingHighs =
    [⟨3, 10, SwingType.high, 3⟩] := by decide

/-! ## Evaluating `calculateSMA` at concrete positions

`decide` cannot reduce rational division, so the sample values used by the
regime claims are established through the following lemmas. -/

theorem numGt_none_right (x : Option ℚ) : numGt x none = false := by
  cases x <;> rfl

theorem numGt_none_left (x : Option ℚ) : numGt none x = false := by
  cases x <;> rfl

theorem calculateSMA_getD_eq (data : List ℚ) (period i : ℕ) (h0 : period ≠ 0)
    (h1 : period ≤ i + 1) (h2 : i < data.length) :
    (calculateSMA data period).getD i none =
      some (((data.drop (i + 1 - period)).take period).sum / (period : ℚ)) := by
  unfold calculateSMA
  rw [List.getD_eq_getElem?_getD, List.getElem?_map, List.getElem?_range h2]
  rw [Option.map_some', Option.getD_some, if_neg (by omega)]

theorem calculateSMA_getD_undef (data : List ℚ) (period i : ℕ)
    (h1 : i + 1 < period) (h2 : i < data.length) :
    (calculateSMA data period).getD i none = none := by
  unfold calculateSMA
  rw [List.getD_eq_getElem?_getD, List.getElem?_map, List.getElem?_range h2]
  rw [Option.map_some', Option.getD_some, if_pos (Or.inl h1)]

theorem short_fast_cur :
    (calculateSMA (shortSeries.map Candle.close) 2).getD 2 none = some (5 / 2) := by
  rw [calculateSMA_getD_eq _ 2 2 (by decide) (by decide) (by decide)]
  norm_num [shortSeries]

theorem short_fast_prev :
    (calculateSMA (shortSeries.map Candle.close) 2).getD 1 none = some (3 / 2) := by
  rw [calculateSMA_getD_eq _ 2 1 (by decide) (by decide) (by decide)]
  norm_num [shortSeries]

theorem short_slow_cur :
    (calculateSMA (shortSeries.map Candle.close) 3).getD 2 none = some 2 := by
  rw [calculateSMA_getD_eq _ 3 2 (by decide) (by decide) (by decide)]
  norm_num [shortSeries]

theorem short_slow_prev :
    (calculateSMA (shortSeries.map Candle.close) 3).getD 1 none = none :=
  calculateSMA_getD_undef _ 3 1 (by decide) (by decide)

theorem trend_fast_cur :
    (calculateSMA (trendSeries.map Candle.close) 2).getD 3 none = some (7 / 2) := by
  rw [calculateSMA_getD_eq _ 2 3 (by decide) (by decide) (by decide)]
  norm_num [trendSeries]

theorem trend_fast_prev :
    (calculateSMA (trendSeries.map Candle.close) 2).getD 2 none = some (5 / 2) := by
  rw [calculateSMA_getD_eq _ 2 2 (by decide) (by decide) (by decide)]
  norm_num [trendSeries]

theorem trend_slow_cur :
    (calculateSMA (trendSeries.map Candle.close) 3).getD 3 none = some 3 := by
  rw [calculateSMA_getD_eq _ 3 3 (by decide) (by decide) (by decide)]
  norm_num [trendSeries]

theorem trend_slow_prev :
    (calculateSMA (trendSeries.map Candle.close) 3).getD 2 none = some 2 := by
  rw [calculateSMA_getD_eq _ 3 2 (by decide) (by decide) (by decide)]
  norm_num [trendSeries]

theorem trendB_fast_cur :
    (calculateSMA (trendSeriesB.map Candle.close) 2).getD 4 none = some (7 / 2) := by
  rw [calculateSMA_getD_eq _ 2 4 (by decide) (by decide) (by decide)]
  norm_num [trendSeriesB]

theorem trendB_fast_prev :
    (calculateSMA (trendSeriesB.map Candle.close) 2).getD 3 none = some (5 / 2) := by
  rw [calculateSMA_getD_eq _ 2 3 (by decide) (by decide) (by decide)]
  norm_num [trendSeriesB]

theorem trendB_slow_cur :
    (calculateSMA (trendSeriesB.map Candle.close) 3).getD 4 none = some 3 := by
  rw [calculateSMA_getD_eq _ 3 4 (by decide) (by decide) (by decide)]
  norm_num [trendSeriesB]

theorem trendB_slow_prev :
    (calculateSMA (trendSeriesB.map Candle.close) 3).getD 3 none = some 2 := by
  rw [calculateSMA_getD_eq _ 3 3 (by decide) (by decide) (by decide)]
  norm_num [trendSeriesB]

/-- The regime of `shortSeries` under `regSettings`: the previous slow SMA
is undefined, yet the block still emits `Range`. -/
theorem shortSeries_regime :
    (calculateSwingZone shortSeries regSettings).regime =
      some (regimeInfo RegimeKind.range) := by
  rw [calculateSwingZone_regime]
  show regimeOfCloses (shortSeries.map Candle.close) true 2 3 =
    some (regimeInfo RegimeKind.range)
  unfold regimeOfCloses
  rw [if_pos ⟨rfl, by decide⟩]
  rw [if_pos ⟨by rw [show ((shortSeries.map Candle.close).length - 1) = 2 from rfl,
      short_fast_cur]; rfl,
    by rw [show ((shortSeries.map Candle.close).length - 1) = 2 from rfl,
      short_slow_cur]; rfl, by decide⟩]
  rw [show ((shortSeries.map Candle.close).length - 1) = 2 from rfl,
    show ((2 : ℕ) - 1) = 1 from rfl,
    short_fast_cur, short_fast_prev, short_slow_cur, short_slow_prev]
  rw [if_neg, if_neg]
  · rintro ⟨-, -, h3, -⟩
    rw [show numLt (some (2 : ℚ)) none = false from rfl] at h3
    cases h3
  · rintro ⟨-, -, h3, -⟩
    rw [numGt_none_right] at h3
    cases h3

/-! ## Flat-series behavior of the pivot detectors -/

theorem getD_replicate (c : ℚ) (n m : ℕ) (hm : m < n) :
    (List.replicate n c).getD m 0 = c := by
  rw [List.getD_eq_getElem?_getD, List.getElem?_replicate, if_pos hm]
  rfl

theorem pivotHigh_replicate (c : ℚ) (n l r idx : ℕ) (h : 1 ≤ l + r) :
    pivotHigh (List.replicate n c) l r idx = none := by
  cases hp : pivotHigh (List.replicate n c) l r idx with
  | none => rfl
  | some w =>
      exfalso
      obtain ⟨h1, h2, -, hL, hR⟩ := (pivotHigh_eq_some_iff _ l r idx w).1 hp
      rw [List.length_replicate] at h2
      rcases Nat.lt_or_ge 0 l with hl1 | hl0
      · have hlt := hL (idx - 1) (by omega) (by omega)
        rw [getD_replicate c n (idx - 1) (by omega),
          getD_replicate c n idx (by omega)] at hlt
        exact lt_irrefl c hlt
      · have hlt := hR (idx + 1) (by omega) (by omega)
        rw [getD_replicate c n (idx + 1) (by omega),
          getD_replicate c n idx (by omega)] at hlt
        exact lt_irrefl c hlt

theorem pivotLow_replicate (c : ℚ) (n l r idx : ℕ) (h : 1 ≤ l + r) :
    pivotLow (List.replicate n c) l r idx = none := by
  cases hp : pivotLow (List.replicate n c) l r idx with
  | none => rfl
  | some w =>
      exfalso
      obtain ⟨h1, h2, -, hL, hR⟩ := (pivotLow_eq_some_iff _ l r idx w).1 hp
      rw [List.length_replicate] at h2
      rcases Nat.lt_or_ge 0 l with hl1 | hl0
      · have hlt := hL (idx - 1) (by omega) (by omega)
        rw [getD_replicate c n (idx - 1) (by omega),
          getD_replicate c n idx (by omega)] at hlt
        exact lt_irrefl c hlt
      · have hlt := hR (idx + 1) (by omega) (by omega)
        rw [getD_replicate c n (idx + 1) (by omega),
          getD_replicate c n idx (by omega)] at hlt
        exact lt_irrefl c hlt

/-! ## The claims -/

/-- C1: the zone scanner processes scan indices `i` from `sensitivity*2` to
`len - sensitivity` (exclusive), each step testing the bar `i - sensitivity`;
a pivot at bar `k` is present in the scan prefix that has processed indices
`< j` exactly when `k + sensitivity < j` (confirmed at scan index
`k + sensitivity`, not earlier), at most one entry per bar index ever appears
(never re-emitted), the full scan is the prefix at `j = len`, and on the
spec's 10-candle series with highs `[1,2,3,10,3,2,1,5,6,7]` and default
`sensitivity = 2` the scanner reports exactly one swing high — bar 3, price
10 — present once scan index 5 has been processed and absent before. -/
theorem claim_C1_confirmation_lag (ohlc : List Candle) (settings : SwingZoneSettings)
    (upTo k : ℕ) (v : ℚ) (t : ℤ) :
    ((⟨k, v, SwingType.high, t⟩ : SwingPoint) ∈
        (zoneScanStateUpTo ohlc settings upTo).swingHighs ↔
      resolveShowHighs settings = true ∧
      resolveSensitivity settings * 2 ≤ k + resolveSensitivity settings ∧
      k + resolveSensitivity settings < ohlc.length - resolveSensitivity settings ∧
      k + resolveSensitivity settings < upTo ∧
      pivotHigh (ohlc.map Candle.high) (resolveSensitivity settings)
        (resolveSensitivity settings) k = some v ∧
      t = (ohlc.map Candle.timestamp).getD k 0) ∧
    ((zoneScanStateUpTo ohlc settings upTo).swingHighs.filter
      (fun pt => pt.barIndex == k)).length ≤ 1 ∧
    zoneScanState ohlc settings = zoneScanStateUpTo ohlc settings ohlc.length ∧
    (calculateSwingZone specSeries {}).swingHighs = [⟨3, 10, SwingType.high, 3⟩] ∧
    (⟨3, 10, SwingType.high, 3⟩ : SwingPoint) ∈
      (zoneScanStateUpTo specSeries {} 6).swingHighs ∧
    (⟨3, 10, SwingType.high, 3⟩ : SwingPoint) ∉
      (zoneScanStateUpTo specSeries {} 5).swingHighs :=
  ⟨mem_zoneUpTo_highs_iff ohlc settings upTo k v t,
    zoneUpTo_highs_filter_le_one ohlc settings upTo k,
    zoneScanState_eq_upTo ohlc settings,
    by decide, by decide, by decide⟩

/-- C2 counterexample: the claim quantifies over every `left`, `right`, but
with `left = right = 0` a flat series does produce pivots — both detectors
report the (neighborless) bar 1 of `[1,1,1]`. -/
theorem claim_C2_counterexample :
    pivotHigh [1, 1, 1] 0 0 1 = some 1 ∧ pivotLow [1, 1, 1] 0 0 1 = some 1 := by
  decide

/-- C2 (amended): the boundary policy (`index < left` or
`index ≥ len - right` gives no pivot) and the strict-inequality
characterization hold for every series, window and index; a flat series
yields no pivot provided the window is nonempty (`1 ≤ left + right`) — with
`left = right = 0` every in-range bar qualifies vacuously, the single point
where the claim's flat-series consequence fails. -/
theorem claim_C2_pivot_detector (series : List ℚ) (l r idx : ℕ) (v : ℚ) :
    ((idx < l ∨ series.length ≤ idx + r) →
      pivotHigh series l r idx = none ∧ pivotLow series l r idx = none) ∧
    (pivotHigh series l r idx = some v ↔
      l ≤ idx ∧ idx + r < series.length ∧ v = series.getD idx 0 ∧
      (∀ j < idx, idx - l ≤ j → series.getD j 0 < series.getD idx 0) ∧
      (∀ j ≤ idx + r, idx < j → series.getD j 0 < series.getD idx 0)) ∧
    (pivotLow series l r idx = some v ↔
      l ≤ idx ∧ idx + r < series.length ∧ v = series.getD idx 0 ∧
      (∀ j < idx, idx - l ≤ j → series.getD idx 0 < series.getD j 0) ∧
      (∀ j ≤ idx + r, idx < j → series.getD idx 0 < series.getD j 0)) ∧
    (∀ (c : ℚ) (n : ℕ), 1 ≤ l + r →
      pivotHigh (List.replicate n c) l r idx = none ∧
      pivotLow (List.replicate n c) l r idx = none) := by
  refine ⟨?_, pivotHigh_eq_some_iff series l r idx v,
    pivotLow_eq_some_iff series l r idx v, ?_⟩
  · intro h
    constructor
    · unfold pivotHigh
      rw [if_pos h]
    · unfold pivotLow
      rw [if_pos h]
  · intro c n hlr
    exact ⟨pivotHigh_replicate c n l r idx hlr, pivotLow_replicate c n l r idx hlr⟩

theorem claim_C2_witness :
    pivotHigh (List.replicate 5 (7 : ℚ)) 2 2 2 = none ∧
    pivotHigh [1, 5, 2] 1 1 1 = some 5 ∧
    pivotHigh [1, 5, 2] 1 1 0 = none :=
  ⟨((claim_C2_pivot_detector (List.replicate 5 (7 : ℚ)) 2 2 2 7).2.2.2 7 5 (by decide)).1,
    (claim_C2_pivot_detector [1, 5, 2] 1 1 1 5).2.1.mpr (by decide),
    ((claim_C2_pivot_detector [1, 5, 2] 1 1 0 5).1 (Or.inl (by decide))).1⟩

/-- C5: after the scan, each side is truncated to its last
`maxSwingPoints` entries: whenever a side produced more raw pivots than the
resolved cap, the returned list has length exactly the cap and is a suffix
of the raw list (the most recently confirmed pivots, order preserved); the
default cap is 2. -/
theorem claim_C5_recency_cap (ohlc : List Candle) (settings : SwingZoneSettings) :
    (resolveMaxSwingPoints settings < (zoneScanState ohlc settings).swingHighs.length →
      (calculateSwingZone ohlc settings).swingHighs.length =
        resolveMaxSwingPoints settings ∧
      (calculateSwingZone ohlc settings).swingHighs <:+
        (zoneScanState ohlc settings).swingHighs) ∧
    (resolveMaxSwingPoints settings < (zoneScanState ohlc settings).swingLows.length →
      (calculateSwingZone ohlc settings).swingLows.length =
        resolveMaxSwingPoints settings ∧
      (calculateSwingZone ohlc settings).swingLows <:+
        (zoneScanState ohlc settings).swingLows) ∧
    resolveMaxSwingPoints {} = 2 := by
  refine ⟨fun hH => ⟨?_, ?_⟩, fun hL => ⟨?_, ?_⟩, rfl⟩
  · rw [calculateSwingZone_swingHighs]
    exact sliceLast_length _ _ (resolveMaxSwingPoints_ne_zero settings) (by omega)
  · rw [calculateSwingZone_swingHighs]
    exact sliceLast_suffix _ _
  · rw [calculateSwingZone_swingLows]
    exact sliceLast_length _ _ (resolveMaxSwingPoints_ne_zero settings) (by omega)
  · rw [calculateSwingZone_swingLows]
    exact sliceLast_suffix _ _

theorem claim_C5_witness :
    (calculateSwingZone capSeries {}).swingHighs.length = resolveMaxSwingPoints {} ∧
    (calculateSwingZone capSeries {}).swingHighs <:+
      (zoneScanState capSeries {}).swingHighs ∧
    (calculateSwingZone capSeries {}).swingLows.length = resolveMaxSwingPoints {} ∧
    (calculateSwingZone capSeries {}).swingLows <:+
      (zoneScanState capSeries {}).swingLows :=
  ⟨((claim_C5_recency_cap capSeries {}).1 (by decide)).1,
    ((claim_C5_recency_cap capSeries {}).1 (by decide)).2,
    ((claim_C5_recency_cap capSeries {}).2.1 (by decide)).1,
    ((claim_C5_recency_cap capSeries {}).2.1 (by decide)).2⟩

/-- C7: with `enableRays` resolving to `false` — in particular when the
field is absent, since its default is `false` — `calculateSwingRays`
returns two empty lists for every input. -/
theorem claim_C7_rays_short_circuit (ohlc : List Candle)
    (settings : SwingZoneSettings) (h : resolveEnableRays settings = false) :
    calculateSwingRays ohlc settings = { rayHighs := [], rayLows := [] } ∧
    resolveEnableRays {} = false :=
  ⟨calculateSwingRays_of_disabled ohlc settings h, rfl⟩

theorem claim_C7_witness :
    calculateSwingRays specSeries {} = { rayHighs := [], rayLows := [] } :=
  (claim_C7_rays_short_circuit specSeries {} rfl).1

/-- C8: `regimeConfirmationBars` is accepted but inert — two settings
differing only in that field give identical `calculateSwingZone` results. -/
theorem claim_C8_confirmation_bars_inert (ohlc : List Candle)
    (settings : SwingZoneSettings) (v : Option ℕ) :
    calculateSwingZone ohlc { settings with regimeConfirmationBars := v } =
      calculateSwingZone ohlc settings := by
  cases settings
  rfl

/-- C3: with both the current and the previous fast/slow SMA samples
defined (and `showRegime` resolving to `true`), the label is BullTrend iff
fast is above slow, both are rising and the final close is above the fast
MA; BearTrend iff the fully mirrored condition holds; Range otherwise; and
the label depends only on the final two SMA samples and the final close —
any second series with the same five values gets the same label. -/
theorem claim_C3_regime_rule (ohlc ohlc2 : List Candle)
    (settings : SwingZoneSettings) (fc fp sc sp : ℚ)
    (hsr : resolveShowRegime settings = true)
    (hl1 : resolveSlowMALength settings ≤ ohlc.length)
    (hl2 : 2 ≤ ohlc.length)
    (hfc : (calculateSMA (ohlc.map Candle.close)
      (resolveFastMALength settings)).getD (ohlc.length - 1) none = some fc)
    (hfp : (calculateSMA (ohlc.map Candle.close)
      (resolveFastMALength settings)).getD (ohlc.length - 1 - 1) none = some fp)
    (hsc : (calculateSMA (ohlc.map Candle.close)
      (resolveSlowMALength settings)).getD (ohlc.length - 1) none = some sc)
    (hsp : (calculateSMA (ohlc.map Candle.close)
      (resolveSlowMALength settings)).getD (ohlc.length - 1 - 1) none = some sp)
    (hl1b : resolveSlowMALength settings ≤ ohlc2.length)
    (hl2b : 2 ≤ ohlc2.length)
    (hfcb : (calculateSMA (ohlc2.map Candle.close)
      (resolveFastMALength settings)).getD (ohlc2.length - 1) none = some fc)
    (hfpb : (calculateSMA (ohlc2.map Candle.close)
      (resolveFastMALength settings)).getD (ohlc2.length - 1 - 1) none = some fp)
    (hscb : (calculateSMA (ohlc2.map Candle.close)
      (resolveSlowMALength settings)).getD (ohlc2.length - 1) none = some sc)
    (hspb : (calculateSMA (ohlc2.map Candle.close)
      (resolveSlowMALength settings)).getD (ohlc2.length - 1 - 1) none = some sp)
    (hcl : (ohlc2.map Candle.close).getD (ohlc2.length - 1) 0 =
      (ohlc.map Candle.close).getD (ohlc.length - 1) 0) :
    ((calculateSwingZone ohlc settings).regime.map MarketRegime.regime =
        some RegimeKind.bullTrend ↔
      sc < fc ∧ fp < fc ∧ sp < sc ∧
        fc < (ohlc.map Candle.close).getD (ohlc.length - 1) 0) ∧
    ((calculateSwingZone ohlc settings).regime.map MarketRegime.regime =
        some RegimeKind.bearTrend ↔
      fc < sc ∧ fc < fp ∧ sc < sp ∧
        (ohlc.map Candle.close).getD (ohlc.length - 1) 0 < fc) ∧
    ((calculateSwingZone ohlc settings).regime.map MarketRegime.regime =
        some RegimeKind.range ↔
      ¬(sc < fc ∧ fp < fc ∧ sp < sc ∧
          fc < (ohlc.map Candle.close).getD (ohlc.length - 1) 0) ∧
      ¬(fc < sc ∧ fc < fp ∧ sc < sp ∧
          (ohlc.map Candle.close).getD (ohlc.length - 1) 0 < fc)) ∧
    (calculateSwingZone ohlc2 settings).regime.map MarketRegime.regime =
      (calculateSwingZone ohlc settings).regime.map MarketRegime.regime := by
  have hk : (calculateSwingZone ohlc settings).regime.map MarketRegime.regime =
      some (if sc < fc ∧ fp < fc ∧ sp < sc ∧
          fc < (ohlc.map Candle.close).getD (ohlc.length - 1) 0 then
        RegimeKind.bullTrend
      else if fc < sc ∧ fc < fp ∧ sc < sp ∧
          (ohlc.map Candle.close).getD (ohlc.length - 1) 0 < fc then
        RegimeKind.bearTrend
      else RegimeKind.range) := by
    rw [calculateSwingZone_regime, hsr]
    have h := regimeOfCloses_kind (ohlc.map Candle.close)
      (resolveFastMALength settings) (resolveSlowMALength settings) fc fp sc sp
      (by simpa [List.length_map] using hl1)
      (by simpa [List.length_map] using hl2)
      (by simpa [List.length_map] using hfc)
      (by simpa [List.length_map] using hfp)
      (by simpa [List.length_map] using hsc)
      (by simpa [List.length_map] using hsp)
    simpa [List.length_map] using h
  have hkb : (calculateSwingZone ohlc2 settings).regime.map MarketRegime.regime =
      some (if sc < fc ∧ fp < fc ∧ sp < sc ∧
          fc < (ohlc.map Candle.close).getD (ohlc.length - 1) 0 then
        RegimeKind.bullTrend
      else if fc < sc ∧ fc < fp ∧ sc < sp ∧
          (ohlc.map Candle.close).getD (ohlc.length - 1) 0 < fc then
        RegimeKind.bearTrend
      else RegimeKind.range) := by
    rw [calculateSwingZone_regime, hsr]
    have h := regimeOfCloses_kind (ohlc2.map Candle.close)
      (resolveFastMALength settings) (resolveSlowMALength settings) fc fp sc sp
      (by simpa [List.length_map] using hl1b)
      (by simpa [List.length_map] using hl2b)
      (by simpa [List.length_map] using hfcb)
      (by simpa [List.length_map] using hfpb)
      (by simpa [List.length_map] using hscb)
      (by simpa [List.length_map] using hspb)
    rw [show ((ohlc2.map Candle.close).length - 1) =
      (ohlc2.length - 1) from by simp, hcl] at h
    simpa [List.length_map] using h
  refine ⟨?_, ?_, ?_, ?_⟩
  · rw [hk]
    split_ifs with hA hB
    · exact iff_of_true rfl hA
    · exact iff_of_false (fun h => absurd (Option.some.inj h) (by decide)) hA
    · exact iff_of_false (fun h => absurd (Option.some.inj h) (by decide)) hA
  · rw [hk]
    split_ifs with hA hB
    · exact iff_of_false (fun h => absurd (Option.some.inj h) (by decide))
        (fun hb => absurd hb.1 (lt_asymm hA.1))
    · exact iff_of_true rfl hB
    · exact iff_of_false (fun h => absurd (Option.some.inj h) (by decide)) hB
  · rw [hk]
    split_ifs with hA hB
    · exact iff_of_false (fun h => absurd (Option.some.inj h) (by decide))
        (fun h => h.1 hA)
    · exact iff_of_false (fun h => absurd (Option.some.inj h) (by decide))
        (fun h => h.2 hB)
    · exact iff_of_true rfl ⟨hA, hB⟩
  · rw [hk, hkb]

theorem claim_C3_witness :
    (calculateSwingZone trendSeries regSettings).regime.map MarketRegime.regime =
      some RegimeKind.bullTrend := by
  have hcl : (trendSeriesB.map Candle.close).getD (trendSeriesB.length - 1) 0 =
      (trendSeries.map Candle.close).getD (trendSeries.length - 1) 0 := by decide
  exact (claim_C3_regime_rule trendSeries trendSeriesB regSettings
    ((7 : ℚ) / 2) ((5 : ℚ) / 2) 3 2 rfl (by decide) (by decide)
    trend_fast_cur trend_fast_prev trend_slow_cur trend_slow_prev
    (by decide) (by decide)
    trendB_fast_cur trendB_fast_prev trendB_slow_cur trendB_slow_prev
    hcl).1.mpr (by norm_num [trendSeries])

/-- C4 counterexample: with closes `[1,2,3]`, `fastMALength = 2` and
`slowMALength = 3`, the series length equals `slowMALength`, the *previous*
slow SMA sample is undefined — yet the classifier is not skipped: it
returns `Range` instead of no regime. -/
theorem claim_C4_counterexample :
    (calculateSMA (shortSeries.map Candle.close)
      (resolveSlowMALength regSettings)).getD
        (shortSeries.length - 1 - 1) none = none ∧
    resolveSlowMALength regSettings ≤ shortSeries.length ∧
    (calculateSwingZone shortSeries regSettings).regime =
      some (regimeInfo RegimeKind.range) :=
  ⟨short_slow_prev, by decide, shortSeries_regime⟩

/-- C4 (amended): with `showRegime` resolving to `true`, the regime is
absent exactly when the series is shorter than `slowMALength`, a *current*
fast or slow SMA sample is undefined, or there are fewer than two closes;
an undefined *previous* sample does not skip classification (its
comparisons are simply false, yielding Range). -/
theorem claim_C4_no_regime (ohlc : List Candle) (settings : SwingZoneSettings)
    (hsr : resolveShowRegime settings = true) :
    (calculateSwingZone ohlc settings).regime = none ↔
      ohlc.length < resolveSlowMALength settings ∨
      (calculateSMA (ohlc.map Candle.close)
        (resolveFastMALength settings)).getD (ohlc.length - 1) none = none ∨
      (calculateSMA (ohlc.map Candle.close)
        (resolveSlowMALength settings)).getD (ohlc.length - 1) none = none ∨
      ohlc.length < 2 := by
  rw [calculateSwingZone_regime, hsr]
  have h := regimeOfCloses_eq_none_iff (ohlc.map Candle.close)
    (resolveFastMALength settings) (resolveSlowMALength settings)
  simpa [List.length_map] using h

theorem claim_C4_witness :
    ¬(calculateSwingZone shortSeries regSettings).regime = none := by
  rw [claim_C4_no_regime shortSeries regSettings rfl]
  rintro (h | h | h | h)
  · exact absurd h (by decide)
  · rw [show shortSeries.length - 1 = 2 from rfl,
      show resolveFastMALength regSettings = 2 from rfl, short_fast_cur] at h
    cases h
  · rw [show shortSeries.length - 1 = 2 from rfl,
      show resolveSlowMALength regSettings = 3 from rfl, short_slow_cur] at h
    cases h
  · exact absurd h (by decide)

/-- C6: the ray scanner ignores the zone `showHighs`/`showLows` flags
(settings differing only in them give identical ray results), every emitted
ray price is the close of the pivot bar, and a zone high and a ray high at
the same bar differ in price whenever that bar's high differs from its
close. -/
theorem claim_C6_rays_use_close (ohlc : List Candle) (settings : SwingZoneSettings)
    (a b : Option Bool) :
    calculateSwingRays ohlc { settings with showHighs := a, showLows := b } =
      calculateSwingRays ohlc settings ∧
    (∀ q ∈ (calculateSwingRays ohlc settings).rayHighs,
      q.price = (ohlc.map Candle.close).getD q.barIndex 0) ∧
    (∀ q ∈ (calculateSwingRays ohlc settings).rayLows,
      q.price = (ohlc.map Candle.close).getD q.barIndex 0) ∧
    (∀ p q, p ∈ (calculateSwingZone ohlc settings).swingHighs →
      q ∈ (calculateSwingRays ohlc settings).rayHighs →
      p.barIndex = q.barIndex →
      (ohlc.map Candle.high).getD p.barIndex 0 ≠
        (ohlc.map Candle.close).getD p.barIndex 0 →
      p.price ≠ q.price) := by
  have hrawH : ∀ q ∈ (calculateSwingRays ohlc settings).rayHighs,
      q ∈ (rayScanState ohlc settings).swingHighs := by
    intro q hq
    rcases hE : resolveEnableRays settings with - | -
    · rw [calculateSwingRays_of_disabled ohlc settings hE] at hq
      cases hq
    · rw [calculateSwingRays_of_enabled ohlc settings hE] at hq
      exact sliceLast_subset _ _ hq
  have hrawL : ∀ q ∈ (calculateSwingRays ohlc settings).rayLows,
      q ∈ (rayScanState ohlc settings).swingLows := by
    intro q hq
    rcases hE : resolveEnableRays settings with - | -
    · rw [calculateSwingRays_of_disabled ohlc settings hE] at hq
      cases hq
    · rw [calculateSwingRays_of_enabled ohlc settings hE] at hq
      exact sliceLast_subset _ _ hq
  refine ⟨?_, ?_, ?_, ?_⟩
  · cases settings
    rfl
  · intro q hq
    exact (ray_raw_highs_spec ohlc settings q (hrawH q hq)).2.2.2.1
  · intro q hq
    exact (ray_raw_lows_spec ohlc settings q (hrawL q hq)).2.2.2.1
  · intro p q hp hq hbi hne
    have hpraw : p ∈ (zoneScanStateUpTo ohlc settings ohlc.length).swingHighs := by
      rw [calculateSwingZone_swingHighs] at hp
      have := sliceLast_subset _ _ hp
      rwa [zoneScanState_eq_upTo] at this
    have hpp := (zone_raw_highs_spec ohlc settings ohlc.length p hpraw).2.2.2.2.1
    have hqp := (ray_raw_highs_spec ohlc settings q (hrawH q hq)).2.2.2.1
    rw [hpp, hqp, ← hbi]
    exact hne

theorem claim_C6_witness :
    calculateSwingRays raysSeries
        { raySettings with showHighs := some false, showLows := some false } =
      calculateSwingRays raysSeries raySettings ∧
    (⟨3, 9, SwingType.high, 3⟩ : SwingPoint).price =
      (raysSeries.map Candle.close).getD 3 0 ∧
    (⟨3, 10, SwingType.high, 3⟩ : SwingPoint).price ≠
      (⟨3, 9, SwingType.high, 3⟩ : SwingPoint).price := by
  have h := claim_C6_rays_use_close raysSeries raySettings (some false) (some false)
  exact ⟨h.1, h.2.1 ⟨3, 9, SwingType.high, 3⟩ (by decide),
    h.2.2.2 ⟨3, 10, SwingType.high, 3⟩ ⟨3, 9, SwingType.high, 3⟩
      (by decide) (by decide) rfl (by decide)⟩

/-- C9: no swing point is ever emitted with pivot bar index at or past
`len - 2*sensitivity` (the scan stops at `len - sensitivity` exclusive), so
both zone lists are empty for every series of length at most
`3*sensitivity`; the same holds for the ray scanner with `raySensitivity`. -/
theorem claim_C9_window_bound (ohlc : List Candle) (settings : SwingZoneSettings) :
    (∀ p ∈ (calculateSwingZone ohlc settings).swingHighs,
      p.barIndex + 2 * resolveSensitivity settings < ohlc.length) ∧
    (∀ p ∈ (calculateSwingZone ohlc settings).swingLows,
      p.barIndex + 2 * resolveSensitivity settings < ohlc.length) ∧
    (ohlc.length ≤ 3 * resolveSensitivity settings →
      (calculateSwingZone ohlc settings).swingHighs = [] ∧
      (calculateSwingZone ohlc settings).swingLows = []) ∧
    (∀ p ∈ (calculateSwingRays ohlc settings).rayHighs,
      p.barIndex + 2 * resolveRaySensitivity settings < ohlc.length) ∧
    (∀ p ∈ (calculateSwingRays ohlc settings).rayLows,
      p.barIndex + 2 * resolveRaySensitivity settings < ohlc.length) ∧
    (ohlc.length ≤ 3 * resolveRaySensitivity settings →
      (calculateSwingRays ohlc settings).rayHighs = [] ∧
      (calculateSwingRays ohlc settings).rayLows = []) := by
  refine ⟨?_, ?_, ?_, ?_, ?_, ?_⟩
  · intro p hp
    rw [calculateSwingZone_swingHighs] at hp
    have hraw := sliceLast_subset _ _ hp
    rw [zoneScanState_eq_upTo] at hraw
    have h := (zone_raw_highs_spec ohlc settings ohlc.length p hraw).2.2.1
    omega
  · intro p hp
    rw [calculateSwingZone_swingLows] at hp
    have hraw := sliceLast_subset _ _ hp
    rw [zoneScanState_eq_upTo] at hraw
    have h := (zone_raw_lows_spec ohlc settings ohlc.length p hraw).2.2.1
    omega
  · intro hle
    obtain ⟨hH, hL⟩ := zoneScanState_empty ohlc settings hle
    constructor
    · rw [calculateSwingZone_swingHighs, hH]
      exact sliceLast_nil _
    · rw [calculateSwingZone_swingLows, hL]
      exact sliceLast_nil _
  · intro p hp
    rcases hE : resolveEnableRays settings with - | -
    · rw [calculateSwingRays_of_disabled ohlc settings hE] at hp
      cases hp
    · rw [calculateSwingRays_of_enabled ohlc settings hE] at hp
      have hraw := sliceLast_subset _ _ hp
      have h := (ray_raw_highs_spec ohlc settings p hraw).2.1
      omega
  · intro p hp
    rcases hE : resolveEnableRays settings with - | -
    · rw [calculateSwingRays_of_disabled ohlc settings hE] at hp
      cases hp
    · rw [calculateSwingRays_of_enabled ohlc settings hE] at hp
      have hraw := sliceLast_subset _ _ hp
      have h := (ray_raw_lows_spec ohlc settings p hraw).2.1
      omega
  · intro hle
    rcases hE : resolveEnableRays settings with - | -
    · rw [calculateSwingRays_of_disabled ohlc settings hE]
      exact ⟨rfl, rfl⟩
    · obtain ⟨hH, hL⟩ := rayScanState_empty ohlc settings hle
      rw [calculateSwingRays_of_enabled ohlc settings hE]
      constructor
      · show sliceLast (rayScanState ohlc settings).swingHighs
          (resolveNumRaysToShow settings) = []
        rw [hH]
        exact sliceLast_nil _
      · show sliceLast (rayScanState ohlc settings).swingLows
          (resolveNumRaysToShow settings) = []
        rw [hL]
        exact sliceLast_nil _

theorem claim_C9_witness :
    (⟨3, 10, SwingType.high, 3⟩ : SwingPoint).barIndex +
      2 * resolveSensitivity {} < specSeries.length ∧
    ((calculateSwingZone sixSeries {}).swingHighs = [] ∧
      (calculateSwingZone sixSeries {}).swingLows = []) ∧
    ((calculateSwingRays sixSeries raySettings).rayHighs = [] ∧
      (calculateSwingRays sixSeries raySettings).rayLows = []) :=
  ⟨(claim_C9_window_bound specSeries {}).1 ⟨3, 10, SwingType.high, 3⟩ (by decide),
    (claim_C9_window_bound sixSeries {}).2.2.1 (by decide),
    (claim_C9_window_bound sixSeries raySettings).2.2.2.2.2 (by decide)⟩

/-- C10: an explicit `maxSwingPoints = 0` does not empty the lists: the
`|| 2` truthiness fallback replaces it by the default cap 2, so the result
equals the one for `maxSwingPoints = 2`, and any side with at least one raw
pivot returns a non-empty list of at most 2 entries. -/
theorem claim_C10_zero_cap_fallback (ohlc : List Candle)
    (settings : SwingZoneSettings) (h : settings.maxSwingPoints = some 0) :
    calculateSwingZone ohlc settings =
      calculateSwingZone ohlc { settings with maxSwingPoints := some 2 } ∧
    ((zoneScanState ohlc settings).swingHighs ≠ [] →
      (calculateSwingZone ohlc settings).swingHighs ≠ [] ∧
      (calculateSwingZone ohlc settings).swingHighs.length ≤ 2) ∧
    ((zoneScanState ohlc settings).swingLows ≠ [] →
      (calculateSwingZone ohlc settings).swingLows ≠ [] ∧
      (calculateSwingZone ohlc settings).swingLows.length ≤ 2) := by
  have hm : resolveMaxSwingPoints settings = 2 := by
    unfold resolveMaxSwingPoints
    rw [h]
    rfl
  refine ⟨?_, fun hne => ⟨?_, ?_⟩, fun hne => ⟨?_, ?_⟩⟩
  · unfold calculateSwingZone
    rw [hm]
    rfl
  · rw [calculateSwingZone_swingHighs, hm]
    exact sliceLast_ne_nil _ _ (by decide) hne
  · rw [calculateSwingZone_swingHighs, hm]
    exact sliceLast_length_le _ _ (by decide)
  · rw [calculateSwingZone_swingLows, hm]
    exact sliceLast_ne_nil _ _ (by decide) hne
  · rw [calculateSwingZone_swingLows, hm]
    exact sliceLast_length_le _ _ (by decide)

theorem claim_C10_witness :
    calculateSwingZone capSeries { maxSwingPoints := some 0 } =
      calculateSwingZone capSeries
        { ({ maxSwingPoints := some 0 } : SwingZoneSettings) with
          maxSwingPoints := some 2 } ∧
    (calculateSwingZone capSeries { maxSwingPoints := some 0 }).swingHighs ≠ [] ∧
    (calculateSwingZone capSeries { maxSwingPoints := some 0 }).swingHighs.length ≤ 2 ∧
    (calculateSwingZone capSeries { maxSwingPoints := some 0 }).swingLows ≠ [] ∧
    (calculateSwingZone capSeries { maxSwingPoints := some 0 }).swingLows.length ≤ 2 := by
  have h := claim_C10_zero_cap_fallback capSeries { maxSwingPoints := some 0 } rfl
  exact ⟨h.1, (h.2.1 (by decide)).1, (h.2.1 (by decide)).2,
    (h.2.2 (by decide)).1, (h.2.2 (by decide)).2⟩

end SwingIndicator
